import Mathlib

/-!
# Music-AI-Backend: verification of the job lifecycle and credit-accounting core

A shallow embedding of the asynchronous generation-job subsystem of the
Music-AI backend: the Mongo collections (`User`, `Workspace`, `Song`) become a
`DB` record of lists; controller and model methods become pure functions from a
`DB` (plus request data and the outcomes of external effects such as provider
calls and audio downloads, which are passed in as parameters) to a new `DB`
and a response value.

Modelling conventions, matching the JavaScript source:
* Mongo documents are looked up with `find?` over the collection lists; writes
  map over the list replacing the entry with the matching `_id`.
* `document.save()` runs the schema validators first (`min: 0` on numeric
  fields); an invalid document throws and nothing is written.  This is the
  `Except` in the `...Save` functions.  `findByIdAndUpdate`/`findOneAndUpdate`
  do not run validators by default, so those writes are plain functions.
* JavaScript truthiness of `x || d` on numbers and strings (where `0`, `""`
  and `undefined`/`null` are falsy) is modelled by `jsOrInt` / `jsOrStr`.
* Numbers are `Int` (they are IEEE doubles in JS, but every value reached in
  the modelled paths is an integer of small magnitude, so `Int` is exact).
-/

set_option maxHeartbeats 1000000

namespace MusicAI

/-- JS `x || d` for an optional number: `undefined`, `null` and `0` are falsy. -/
def jsOrInt (x : Option Int) (d : Int) : Int :=
  match x with
  | none => d
  | some v => if v = 0 then d else v

/-- JS `x || d` for an optional string: `undefined`, `null` and `""` are falsy. -/
def jsOrStr (x : Option String) (d : String) : String :=
  match x with
  | none => d
  | some v => if v = "" then d else v

/-- JS falsiness of an optional string (used in `if (!audio_url || !prompt)`). -/
def jsFalsy (x : Option String) : Bool :=
  match x with
  | none => true
  | some v => v == ""

/-- JS `String.prototype.trim()`: strip leading and trailing whitespace.
Implemented by structural recursion over the character list so that concrete
instances reduce inside the kernel. -/
def jsTrim (s : String) : String :=
  ⟨((s.data.dropWhile Char.isWhitespace).reverse.dropWhile
      Char.isWhitespace).reverse⟩

/-- Song.status enum from Models/Song.js. -/
inductive SongStatus
  | pending
  | generating
  | processing
  | completed
  | failed
deriving DecidableEq, Repr

/-- The fields of a Song document (Models/Song.js) that the verified paths
touch.  `hasCompletedAt` models whether `completedAt` has been set (the
timestamp value itself is irrelevant to the claims). -/
structure Song where
  id : Nat
  title : String := ""
  status : SongStatus := .pending
  sunoTaskId : Option String := none
  audioUrl : Option String := none
  imageUrl : Option String := none
  videoUrl : Option String := none
  originalAudioUrl : Option String := none
  tags : List String := []
  duration : Int := 0
  creditsUsed : Int := 0
  errorMessage : Option String := none
  hasCompletedAt : Bool := false
  userId : Nat := 0
  workspace : Option Nat := none
deriving DecidableEq, Repr

/-- The rolled-up `stats` subdocument of a Workspace (Models/Workspace.js). -/
structure WorkspaceStats where
  totalSongs : Int := 0
  completedSongs : Int := 0
  totalDuration : Int := 0
  creditsUsed : Int := 0
deriving DecidableEq, Repr

/-- The fields of a Workspace document (Models/Workspace.js) that the verified
paths touch. -/
structure Workspace where
  id : Nat
  name : String := ""
  userId : Nat := 0
  songs : List Nat := []
  isDefault : Bool := false
  isTrashed : Bool := false
  stats : WorkspaceStats := {}
deriving DecidableEq, Repr

/-- The fields of a User document (Models/User.js) that the verified paths
touch. -/
structure User where
  id : Nat
  credits : Int := 30
  totalCreditsUsed : Int := 0
  workspaces : List Nat := []
deriving DecidableEq, Repr

/-- A record of one outbound provider submission (the axios POST made by
SunoApiClient); `generateMusic` appends one entry per API call, so an
unchanged trace shows no provider call was made. -/
structure ProviderCall where
  endpoint : String
  prompt : String := ""
deriving DecidableEq, Repr

/-- The persistent state: the three Mongo collections plus the provider-call
trace and a fresh-ObjectId source. -/
structure DB where
  users : List User := []
  workspaces : List Workspace := []
  songs : List Song := []
  providerCalls : List ProviderCall := []
  nextId : Nat := 0
deriving DecidableEq, Repr

/-- `User.findById(uid)`. -/
def DB.findUser (db : DB) (uid : Nat) : Option User :=
  db.users.find? (fun u => u.id == uid)

/-- `Workspace.findById(wid)`. -/
def DB.findWorkspace (db : DB) (wid : Nat) : Option Workspace :=
  db.workspaces.find? (fun w => w.id == wid)

/-- `Song.findById(sid)`. -/
def DB.findSong (db : DB) (sid : Nat) : Option Song :=
  db.songs.find? (fun s => s.id == sid)

/-- `Song.findOne({sunoTaskId: tid})` (webhookRoutes.js line 81).  Callback
entries in the modelled paths always carry a defined id. -/
def DB.findSongByTaskId (db : DB) (tid : String) : Option Song :=
  db.songs.find? (fun s => s.sunoTaskId == some tid)

/-- `Workspace.findOne({_id, user, isTrashed: false})`. -/
def DB.findWorkspaceOwned (db : DB) (wid uid : Nat) : Option Workspace :=
  db.workspaces.find? (fun w => w.id == wid && w.userId == uid && !w.isTrashed)

/-- `Workspace.findOne({_id, user})` (the delete endpoints do not filter on
`isTrashed`). -/
def DB.findWorkspaceOwnedAny (db : DB) (wid uid : Nat) : Option Workspace :=
  db.workspaces.find? (fun w => w.id == wid && w.userId == uid)

/-- `Workspace.findOne({user, isDefault: true, isTrashed: false})`. -/
def DB.findDefaultWorkspace (db : DB) (uid : Nat) : Option Workspace :=
  db.workspaces.find? (fun w => w.userId == uid && w.isDefault && !w.isTrashed)

/-- Replace the user document with matching `_id`. -/
def DB.setUser (db : DB) (u : User) : DB :=
  { db with users := db.users.map (fun v => if v.id == u.id then u else v) }

/-- Replace the workspace document with matching `_id`. -/
def DB.setWorkspace (db : DB) (w : Workspace) : DB :=
  { db with workspaces := db.workspaces.map (fun v => if v.id == w.id then w else v) }

/-- Replace the song document with matching `_id`. -/
def DB.setSong (db : DB) (s : Song) : DB :=
  { db with songs := db.songs.map (fun v => if v.id == s.id then s else v) }

/-- Insert a new workspace document. -/
def DB.insertWorkspace (db : DB) (w : Workspace) : DB :=
  { db with workspaces := db.workspaces ++ [w] }

/-- Insert a new song document. -/
def DB.insertSong (db : DB) (s : Song) : DB :=
  { db with songs := db.songs ++ [s] }

/-- Schema validators on User (Models/User.js): `credits` and
`totalCreditsUsed` both carry `min: 0`. -/
def User.valid (u : User) : Bool :=
  decide (0 ≤ u.credits) && decide (0 ≤ u.totalCreditsUsed)

/-- `user.save()`: validation runs first; an invalid document throws and
nothing is written. -/
def userSave (db : DB) (u : User) : Except String DB :=
  if u.valid then .ok (db.setUser u) else .error "User validation failed"

/-- Schema validators on Song (Models/Song.js): `duration` and `creditsUsed`
carry `min: 0`. -/
def Song.valid (s : Song) : Bool :=
  decide (0 ≤ s.duration) && decide (0 ≤ s.creditsUsed)

/-- `song.save()` on an existing document. -/
def songSave (db : DB) (s : Song) : Except String DB :=
  if s.valid then .ok (db.setSong s) else .error "Song validation failed"

/-- `song.save()` on a freshly constructed document. -/
def songSaveNew (db : DB) (s : Song) : Except String DB :=
  if s.valid then .ok (db.insertSong s) else .error "Song validation failed"

/-- Schema validators on the Workspace stats subdocument (Models/Workspace.js):
all four counters carry `min: 0`. -/
def Workspace.statsValid (w : Workspace) : Bool :=
  decide (0 ≤ w.stats.totalSongs) && decide (0 ≤ w.stats.completedSongs) &&
  decide (0 ≤ w.stats.totalDuration) && decide (0 ≤ w.stats.creditsUsed)

/-- The pre-save hook of Models/Workspace.js (lines 294-307): when `isDefault`
was modified and is now true, `updateMany` clears `isDefault` on every other
workspace of the same user (trashed ones included), in the same write. -/
def clearOtherDefaults (db : DB) (uid keep : Nat) : DB :=
  { db with workspaces := db.workspaces.map (fun w =>
      if w.userId == uid && w.id != keep && w.isDefault
      then { w with isDefault := false } else w) }

/-- `workspace.save()`: validation, then the single-default pre-save hook
(it only fires when `isDefault` was modified to true on this save), then the
write.  `isNew` distinguishes insert from update. -/
def workspaceSave (db : DB) (w : Workspace) (modifiedDefault isNew : Bool) :
    Except String DB :=
  if !w.statsValid then .error "Workspace validation failed"
  else
    let db1 := if modifiedDefault && w.isDefault
               then clearOtherDefaults db w.userId w.id else db
    .ok (if isNew then db1.insertWorkspace w else db1.setWorkspace w)

/-- `Workspace.findByIdAndUpdate(wid, {$inc: {stats...}})`: update validators
are off by default in mongoose, so the increments apply unconditionally when
the document exists (webhookRoutes.js lines 125-133, MusicController.js lines
789-795). -/
def incWorkspaceStats (db : DB) (wid : Nat)
    (dTotal dCompleted dDuration dCredits : Int) : DB :=
  { db with workspaces := db.workspaces.map (fun w =>
      if w.id == wid then
        { w with stats :=
          { totalSongs := w.stats.totalSongs + dTotal
            completedSongs := w.stats.completedSongs + dCompleted
            totalDuration := w.stats.totalDuration + dDuration
            creditsUsed := w.stats.creditsUsed + dCredits } }
      else w) }

/-- `BACKEND_URL/generated-music/id.mp3`, the stable local asset path derived
from the Job id. -/
def localAudioPath (sid : Nat) : String :=
  "BACKEND_URL/generated-music/" ++ toString sid ++ ".mp3"

/-! ## MusicController.generateMusic (lines 15-186) -/

/-- The request body of `POST /generate` as destructured at lines 17-26. -/
structure GenReq where
  prompt : String := ""
  model_version : String := "v4"
  make_instrumental : Bool := false
  tags : String := ""
  title : String := ""
  workspace_id : Option Nat := none
  userId : Nat := 0
deriving DecidableEq, Repr

/-- The credit-cost table of generateMusic (lines 39-44):
`creditCosts[model_version] || 10`. -/
def creditCostFor (mv : String) : Int :=
  if mv = "v3_5" then 10 else if mv = "v4" then 10 else if mv = "v4_5" then 15
  else 10

/-- The distinguishable HTTP responses of the generation endpoints. -/
inductive GenResult
  | validationErr
  | userNotFound
  | insufficientCredits (required available : Int)
  | workspaceNotFound
  | started (songId : Nat) (taskId : String)
  | submitFailed (msg : String)
  | serverError (msg : String)
deriving DecidableEq, Repr

/-- The `catch (apiError)` handler of generateMusic (lines 163-177): mark the
in-memory Job `failed`, save it, do not deduct credits, respond 500.  The
handler also catches a failed `song.save()`/`user.save()` from the success
region (lines 137-147), which is why the mutated song is passed in. -/
def generateMusicApiFailure (db : DB) (song : Song) (msg : String) :
    DB × GenResult :=
  let songF := { song with status := .failed, errorMessage := some msg }
  match songSave db songF with
  | .error e => (db, .serverError e)
  | .ok db1 => (db1, .submitFailed msg)

/-- Workspace resolution of generateMusic (lines 64-97): an explicit
`workspace_id` must name a non-trashed workspace of the caller; otherwise the
default workspace is used, created on the fly (with the single-default hook
firing) when the account has none.  On the create path the user document also
gets the new workspace id pushed and saved.  Errors carry the database reached
at the point of the throw. -/
def resolveGenWorkspace (db : DB) (req : GenReq) (user : User) :
    Except (DB × GenResult) (DB × Workspace × User) :=
  match req.workspace_id with
  | some wid =>
    match db.findWorkspaceOwned wid req.userId with
    | none => .error (db, .workspaceNotFound)
    | some w => .ok (db, w, user)
  | none =>
    match db.findDefaultWorkspace req.userId with
    | some w => .ok (db, w, user)
    | none =>
      let w : Workspace := { id := db.nextId, name := "My Workspace",
                             userId := req.userId, isDefault := true }
      let db0 := { db with nextId := db.nextId + 1 }
      match workspaceSave db0 w true true with
      | .error e => .error (db0, .serverError e)
      | .ok db1 =>
        let user1 := { user with workspaces := user.workspaces ++ [w.id] }
        match userSave db1 user1 with
        | .error e => .error (db1, .serverError e)
        | .ok db2 => .ok (db2, w, user1)

/-- Lines 99-177 of generateMusic, after workspace resolution: Song creation,
workspace update, provider call, then on success attach the task id and
deduct the credits, on failure mark the Job failed without deducting. -/
def generateMusicWithWorkspace (db1 : DB) (req : GenReq) (ws : Workspace)
    (user1 : User) (submitRes : Except String String) : DB × GenResult :=
  let creditCost := creditCostFor req.model_version
  let song : Song :=
    { id := db1.nextId, title := jsOrStr (some req.title) "Untitled Song",
      status := .pending, creditsUsed := creditCost,
      userId := req.userId, workspace := some ws.id }
  let db2 := { db1 with nextId := db1.nextId + 1 }
  match songSaveNew db2 song with
  | .error e => (db2, .serverError e)
  | .ok db3 =>
    let ws1 := { ws with
                 songs := ws.songs ++ [song.id]
                 stats := { ws.stats with
                            totalSongs := ws.stats.totalSongs + 1 } }
    match workspaceSave db3 ws1 false false with
    | .error e => (db3, .serverError e)
    | .ok db4 =>
      let db5 := { db4 with providerCalls := db4.providerCalls ++
                    [{ endpoint := "generate", prompt := (jsTrim req.prompt) }] }
      match submitRes with
      | .error apiMsg => generateMusicApiFailure db5 song apiMsg
      | .ok taskId =>
        let song1 := { song with
                       sunoTaskId := some taskId
                       status := .generating
                       audioUrl := some (localAudioPath song.id) }
        match songSave db5 song1 with
        | .error e => generateMusicApiFailure db5 song1 e
        | .ok db6 =>
          let user2 := { user1 with
                         credits := user1.credits - creditCost
                         totalCreditsUsed :=
                           user1.totalCreditsUsed + creditCost }
          match userSave db6 user2 with
          | .error e => generateMusicApiFailure db6 song1 e
          | .ok db7 => (db7, .started song.id taskId)

/-- MusicController.generateMusic.  `submitRes` is the outcome of the
external `sunoApi.generateMusic` call (line 133): the provider task id on
success, the thrown error message on failure.  The call itself is recorded in
`providerCalls`; the early-return paths never reach it.  Source order is kept:
validation, credit check, workspace resolution, then the creation/submission
stage `generateMusicWithWorkspace`. -/
def generateMusic (db : DB) (req : GenReq) (submitRes : Except String String) :
    DB × GenResult :=
  if (jsTrim req.prompt) = "" then (db, .validationErr)
  else
    let creditCost := creditCostFor req.model_version
    match db.findUser req.userId with
    | none => (db, .userNotFound)
    | some user =>
      if user.credits < creditCost then
        (db, .insufficientCredits creditCost user.credits)
      else
        match resolveGenWorkspace db req user with
        | .error r => r
        | .ok (db1, ws, user1) =>
          generateMusicWithWorkspace db1 req ws user1 submitRes

/-! ## MusicController.extendMusic (lines 352-455) and coverAudio (457-533)

Neither endpoint contacts the provider: after the credit check they fabricate
a local task id (`extend_`/`cover_` + timestamp + random suffix), flip the Job
to `generating` and deduct the full credit cost.  `now` and `rand` stand for
`Date.now()` and the random suffix. -/

/-- The request body of `POST /extend` (lines 354-363).  In the source the
default workspace is looked up first and then overwritten whenever
`workspace_id` is present; the net result (modelled directly) is: an explicit
`workspace_id` must resolve or the request 404s even if a default exists. -/
structure ExtendReq where
  audio_url : Option String := none
  prompt : String := ""
  tags : String := ""
  title : String := ""
  workspace_id : Option Nat := none
  userId : Nat := 0
deriving DecidableEq, Repr

def extendMusic (db : DB) (req : ExtendReq) (now : Nat) (rand : String) :
    DB × GenResult :=
  if jsFalsy req.audio_url || req.prompt == "" then (db, .validationErr)
  else
    match db.findUser req.userId with
    | none => (db, .serverError "TypeError: user is null")
    | some user =>
      if user.credits < 10 then (db, .insufficientCredits 10 user.credits)
      else
        match (match req.workspace_id with
               | some wid => db.findWorkspaceOwned wid req.userId
               | none => db.findDefaultWorkspace req.userId) with
        | none => (db, .workspaceNotFound)
        | some ws =>
          let song : Song :=
            { id := db.nextId, title := jsOrStr (some req.title) "Extended Song",
              status := .pending, creditsUsed := 10, userId := req.userId,
              workspace := some ws.id, originalAudioUrl := req.audio_url }
          let db1 := { db with nextId := db.nextId + 1 }
          match songSaveNew db1 song with
          | .error e => (db1, .serverError e)
          | .ok db2 =>
            let ws1 := { ws with songs := ws.songs ++ [song.id] }
            match workspaceSave db2 ws1 false false with
            | .error e => (db2, .serverError e)
            | .ok db3 =>
              let taskId := "extend_" ++ toString now ++ "_" ++ rand
              let song1 := { song with
                             status := .generating
                             sunoTaskId := some taskId }
              match songSave db3 song1 with
              | .error e => (db3, .serverError e)
              | .ok db4 =>
                let user1 := { user with
                               credits := user.credits - 10
                               totalCreditsUsed := user.totalCreditsUsed + 10 }
                match userSave db4 user1 with
                | .error e => (db4, .serverError e)
                | .ok db5 => (db5, .started song.id taskId)

/-- MusicController.coverAudio: always attaches to the caller's default
workspace; when none exists, `workspace._id` on `null` throws (caught as
500). -/
def coverAudio (db : DB) (audio_url : Option String) (prompt : String)
    (userId : Nat) (now : Nat) (rand : String) : DB × GenResult :=
  if jsFalsy audio_url || prompt == "" then (db, .validationErr)
  else
    match db.findUser userId with
    | none => (db, .serverError "TypeError: user is null")
    | some user =>
      if user.credits < 15 then (db, .insufficientCredits 15 user.credits)
      else
        match db.findDefaultWorkspace userId with
        | none => (db, .serverError "TypeError: workspace is null")
        | some ws =>
          let song : Song :=
            { id := db.nextId, title := "Audio Cover", status := .pending,
              creditsUsed := 15, userId := userId, workspace := some ws.id,
              originalAudioUrl := audio_url }
          let db1 := { db with nextId := db.nextId + 1 }
          match songSaveNew db1 song with
          | .error e => (db1, .serverError e)
          | .ok db2 =>
            let ws1 := { ws with songs := ws.songs ++ [song.id] }
            match workspaceSave db2 ws1 false false with
            | .error e => (db2, .serverError e)
            | .ok db3 =>
              let taskId := "cover_" ++ toString now ++ "_" ++ rand
              let song1 := { song with
                             status := .generating
                             sunoTaskId := some taskId }
              match songSave db3 song1 with
              | .error e => (db3, .serverError e)
              | .ok db4 =>
                let user1 := { user with
                               credits := user.credits - 15
                               totalCreditsUsed := user.totalCreditsUsed + 15 }
                match userSave db4 user1 with
                | .error e => (db4, .serverError e)
                | .ok db5 => (db5, .started song.id taskId)

/-! ## MusicController.musicGenerationCallback (lines 765-821)

The per-song callback endpoint.  Note the source has no guard on the Job
already being terminal: a `completed` payload always re-assigns the produced
fields and re-increments the workspace stats, and a `failed` payload always
re-runs the refund. -/

/-- The callback body as read at lines 781-808. -/
structure MusicCbData where
  status : String := ""
  audio_url : Option String := none
  duration : Option Int := none
  error_message : Option String := none
deriving DecidableEq, Repr

/-- Responses of musicGenerationCallback. -/
inductive CbResult
  | notFound
  | success
  | serverError (msg : String)
deriving DecidableEq, Repr

def musicGenerationCallback (db : DB) (songId : Nat) (cb : MusicCbData) :
    DB × CbResult :=
  match db.findSong songId with
  | none => (db, .notFound)
  | some song =>
    if cb.status = "completed" then
      let song1 := { song with
                     status := .completed
                     audioUrl := cb.audio_url
                     duration := jsOrInt cb.duration 0
                     hasCompletedAt := true }
      let db1 := match song1.workspace with
                 | some wid => incWorkspaceStats db wid 0 1 song1.duration 0
                 | none => db
      match songSave db1 song1 with
      | .error e => (db1, .serverError e)
      | .ok db2 => (db2, .success)
    else if cb.status = "failed" then
      let song1 := { song with
                     status := .failed
                     errorMessage :=
                       some (jsOrStr cb.error_message "Generation failed") }
      let afterRefund : Except String DB :=
        match db.findUser song.userId with
        | some u =>
          if 0 < song.creditsUsed then
            userSave db { u with
                          credits := u.credits + song.creditsUsed
                          totalCreditsUsed :=
                            u.totalCreditsUsed - song.creditsUsed }
          else .ok db
        | none => .ok db
      match afterRefund with
      | .error e => (db, .serverError e)
      | .ok db1 =>
        match songSave db1 song1 with
        | .error e => (db1, .serverError e)
        | .ok db2 => (db2, .success)
    else
      match songSave db song with
      | .error e => (db, .serverError e)
      | .ok db1 => (db1, .success)

/-! ## webhookRoutes.js: processSongCallback (lines 74-140) and the /suno
handler (lines 143-203) -/

/-- One element of the provider callback payload as destructured at line 78. -/
structure SunoSongData where
  id : Option String := none
  audio_url : Option String := none
  image_url : Option String := none
  title : Option String := none
  tags : Option (List String) := none
  duration : Option Int := none
  video_url : Option String := none
deriving DecidableEq, Repr

/-- The completion tail of processSongCallback (lines 108-135): assign the
produced fields, save, then `$inc` the workspace stats.  A failed save is
swallowed by the enclosing catch, leaving the database untouched. -/
def finishSongCallback (db : DB) (song : Song) (sd : SunoSongData)
    (localAudioUrl : String) : DB :=
  let song1 := { song with
                 status := .completed
                 audioUrl := some localAudioUrl
                 imageUrl := sd.image_url
                 videoUrl := sd.video_url
                 title := jsOrStr sd.title song.title
                 duration := jsOrInt sd.duration 180
                 hasCompletedAt := true
                 tags := match sd.tags with
                         | some ts => ts
                         | none => song.tags }
  match songSave db song1 with
  | .error _ => db
  | .ok db1 =>
    match song1.workspace with
    | some wid => incWorkspaceStats db1 wid 0 1 song1.duration song1.creditsUsed
    | none => db1

/-- webhookRoutes.processSongCallback.  `download` is the outcome of the
external `downloadAudio(audio_url, song._id)` call: the local URL on success,
the thrown error message on failure.  Source behaviour on a failed download
(lines 97-105, including the comment "If download fails, mark as failed rather
than completed"): the Job is marked `failed` with the download error and the
function returns without completing or touching the workspace stats. -/
def processSongCallback (db : DB) (sd : SunoSongData)
    (download : String → Except String String) : DB :=
  match (match sd.id with
         | some tid => db.findSongByTaskId tid
         | none => none) with
  | none => db
  | some song =>
    match sd.audio_url with
    | some url =>
      match download url with
      | .error msg =>
        let songF := { song with
                       status := .failed
                       errorMessage :=
                         some ("Failed to download audio: " ++ msg) }
        match songSave db songF with
        | .error _ => db
        | .ok db1 => db1
      | .ok localUrl => finishSongCallback db song sd localUrl
    | none => finishSongCallback db song sd (localAudioPath song.id)

/-- The shapes of `req.body.data` the handler distinguishes (lines 151-161):
`{data: [...]}`, `{data: {...}}`, a bare array, or a bare object.  Only the
bare-object shape carries the `task_id` field read in the non-200 branch
(line 176). -/
inductive SunoCallbackData
  | nestedArr (items : List SunoSongData)
  | nestedObj (sd : SunoSongData)
  | arr (items : List SunoSongData)
  | obj (sd : SunoSongData) (task_id : Option String)
deriving DecidableEq, Repr

/-- `req.body` of the /suno webhook: `{code, msg, data}` (line 147).  `none`
for `data` models a missing/falsy field. -/
structure WebhookBody where
  code : Int := 0
  msg : Option String := none
  data : Option SunoCallbackData := none
deriving DecidableEq, Repr

/-- Normalisation of the payload shapes into the list bound to
`songsToProcess` (lines 151-161). -/
def songsToProcessOf : SunoCallbackData → List SunoSongData
  | .nestedArr items => items
  | .nestedObj sd => [sd]
  | .arr items => items
  | .obj sd _ => [sd]

/-- An HTTP status plus the `success` flag of the JSON body. -/
structure HttpResponse where
  status : Nat
  success : Bool
deriving DecidableEq, Repr

/-- JS block-scoped identifier resolution: referencing an identifier that is
not declared in any enclosing scope throws a ReferenceError (optional
chaining on the expression does not prevent this, since the base identifier
lookup itself fails). -/
def jsIdentifierRef (declaredInScope : List String) (name : String) :
    Except String Unit :=
  if name ∈ declaredInScope then .ok () else .error "ReferenceError"

/-- The identifiers declared in scope at the response statement of the /suno
handler (webhookRoutes.js lines 189-194): the destructured `code`, `msg` and
`data` from line 147.  `songsToProcess` is declared with `let` at line 151
inside the `if (code === 200 && data)` block, which closes at line 171 before
the response statement. -/
def scopeAtSunoResponse : List String := ["code", "msg", "data"]

/-- The branch dispatch of the /suno handler (lines 149-187): process each
normalised entry through processSongCallback when `code === 200` and data is
present; mark the Job named by `data.task_id` failed when `code !== 200`;
otherwise do nothing. -/
def sunoWebhookProcess (db : DB) (body : WebhookBody)
    (download : String → Except String String) : DB :=
  if body.code = 200 ∧ body.data.isSome then
    match body.data with
    | some d => (songsToProcessOf d).foldl
        (fun acc sd => processSongCallback acc sd download) db
    | none => db
  else if body.code ≠ 200 then
    match body.data with
    | some (.obj _ (some tid)) =>
      match db.findSongByTaskId tid with
      | some song =>
        let songF := { song with
                       status := .failed
                       errorMessage :=
                         some (jsOrStr body.msg "Generation failed") }
        match songSave db songF with
        | .ok db1 => db1
        | .error _ => db
      | none => db
    | _ => db
  else db

/-- The /suno webhook handler (lines 143-203).  After the dispatch, the
response statement evaluates `songsToProcess?.length || 0` (line 193);
`songsToProcess` is out of scope there, so the expression throws a
ReferenceError before `res.json` is invoked, and the catch block (lines
196-202) answers `500 {success:false}` instead. -/
def sunoWebhook (db : DB) (body : WebhookBody)
    (download : String → Except String String) : DB × HttpResponse :=
  let db1 := sunoWebhookProcess db body download
  match jsIdentifierRef scopeAtSunoResponse "songsToProcess" with
  | .ok _ => (db1, { status := 200, success := true })
  | .error _ => (db1, { status := 500, success := false })

/-! ## MusicController.checkSongStatus (lines 190-279)

The manual status-poll fallback.  `statusCheck` is the outcome of the external
`sunoApi.getGenerationDetails` call; `download` is the outcome of the manual
audio download attempt (lines 221-243).  In the source that attempt references
`path`, `fs`, `axios` and `__dirname`, none of which are imported in
MusicController.js, so at runtime it always throws and the fallback branch
(line 246: keep the remote `audio_url`) always applies; the outcome is still
kept as a parameter here. -/

/-- The normalised result of `sunoApi.getGenerationDetails`. -/
structure StatusCheckResult where
  success : Bool := false
  status : String := ""
  songs : List SunoSongData := []
  errorMessage : Option String := none
deriving DecidableEq, Repr

/-- Responses of checkSongStatus: the endpoint answers with the (possibly
updated, possibly unsaved in-memory) song document. -/
inductive PollResult
  | notFound
  | okSong (s : Song)
deriving DecidableEq, Repr

/-- `if (songData.x) song.x = songData.x` on an optional-string field. -/
def jsIfTruthySet (x old : Option String) : Option String :=
  match x with
  | none => old
  | some v => if v = "" then old else some v

def checkSongStatus (db : DB) (songId userId : Nat)
    (statusCheck : Except String StatusCheckResult)
    (download : String → Except String Unit) : DB × PollResult :=
  match db.songs.find? (fun s => s.id == songId && s.userId == userId) with
  | none => (db, .notFound)
  | some song =>
    if song.status = .generating ∧ song.sunoTaskId.isSome then
      match statusCheck with
      | .error _ => (db, .okSong song)
      | .ok sc =>
        if sc.success then
          match sc.songs with
          | songData :: _ =>
            if sc.status = "COMPLETED" then
              let song1 := { song with
                             status := .completed
                             hasCompletedAt := true }
              let song2 :=
                match songData.audio_url with
                | some remoteUrl =>
                  match download remoteUrl with
                  | .ok _ =>
                    { song1 with audioUrl := some (localAudioPath song.id) }
                  | .error _ => { song1 with audioUrl := some remoteUrl }
                | none => song1
              let song3 := { song2 with
                             imageUrl := jsIfTruthySet songData.image_url
                                           song2.imageUrl
                             title := jsOrStr songData.title song2.title
                             duration := jsOrInt songData.duration
                                           song2.duration }
              match songSave db song3 with
              | .error _ => (db, .okSong song3)
              | .ok db1 => (db1, .okSong song3)
            else if sc.status = "FAILED" then
              let song1 := { song with
                             status := .failed
                             errorMessage :=
                               some (jsOrStr sc.errorMessage
                                       "Generation failed") }
              match songSave db song1 with
              | .error _ => (db, .okSong song1)
              | .ok db1 => (db1, .okSong song1)
            else (db, .okSong song)
          | [] =>
            if sc.status = "FAILED" then
              let song1 := { song with
                             status := .failed
                             errorMessage :=
                               some (jsOrStr sc.errorMessage
                                       "Generation failed") }
              match songSave db song1 with
              | .error _ => (db, .okSong song1)
              | .ok db1 => (db1, .okSong song1)
            else (db, .okSong song)
        else (db, .okSong song)
    else (db, .okSong song)

/-! ## WorkspaceController operations and the Workspace model methods -/

/-- Responses of the workspace mutation endpoints. -/
inductive WsResult
  | notFound
  | cannotDeleteDefault
  | done
  | serverError (msg : String)
deriving DecidableEq, Repr

/-- WorkspaceController.deleteWorkspace (lines 238-279): move to trash,
rejected with 400 when the workspace is the default one (lines 255-260). -/
def deleteWorkspace (db : DB) (uid wid : Nat) : DB × WsResult :=
  match db.findWorkspaceOwnedAny wid uid with
  | none => (db, .notFound)
  | some w =>
    if w.isDefault then (db, .cannotDeleteDefault)
    else
      match workspaceSave db { w with isTrashed := true } false false with
      | .error e => (db, .serverError e)
      | .ok db1 => (db1, .done)

/-- WorkspaceController.permanentDeleteWorkspace (lines 351-402): rejected
with 400 when default (lines 368-373); otherwise cascade-delete the
workspace's songs, pull the id from the user document, and delete the
workspace. -/
def permanentDeleteWorkspace (db : DB) (uid wid : Nat) : DB × WsResult :=
  match db.findWorkspaceOwnedAny wid uid with
  | none => (db, .notFound)
  | some w =>
    if w.isDefault then (db, .cannotDeleteDefault)
    else
      let pullWs : User → User := fun u =>
        if u.id == uid then
          { u with workspaces := u.workspaces.filter (· ≠ wid) }
        else u
      let db1 := { db with
                   songs := db.songs.filter (fun s => s.workspace ≠ some wid) }
      let db2 := { db1 with users := db1.users.map pullWs }
      let db3 := { db2 with
                   workspaces := db2.workspaces.filter (fun v => v.id ≠ wid) }
      (db3, .done)

/-- WorkspaceController.restoreWorkspace (lines 313-348): a
`findOneAndUpdate` keyed on `{_id, user, isTrashed: true}`, clearing the
trashed flag (no validators, no save hooks). -/
def restoreWorkspace (db : DB) (uid wid : Nat) : DB × WsResult :=
  match db.workspaces.find?
          (fun w => w.id == wid && w.userId == uid && w.isTrashed) with
  | none => (db, .notFound)
  | some w => (db.setWorkspace { w with isTrashed := false }, .done)

/-- Responses of createWorkspace. -/
inductive CreateWsResult
  | validationErr
  | duplicateName
  | created (wid : Nat)
  | serverError (msg : String)
deriving DecidableEq, Repr

/-- WorkspaceController.createWorkspace (lines 93-160): name validation,
per-owner duplicate-name check among non-trashed workspaces, then a save (the
new workspace is not default, so the single-default hook does not fire) and a
`$push` of the id onto the user document. -/
def createWorkspace (db : DB) (uid : Nat) (name : String) :
    DB × CreateWsResult :=
  if (jsTrim name) = "" then (db, .validationErr)
  else if 100 < (jsTrim name).length then (db, .validationErr)
  else if db.workspaces.any
            (fun w => w.userId == uid && w.name == (jsTrim name) && !w.isTrashed)
  then (db, .duplicateName)
  else
    let w : Workspace := { id := db.nextId, name := (jsTrim name), userId := uid }
    let db1 := { db with nextId := db.nextId + 1 }
    match workspaceSave db1 w false true with
    | .error e => (db1, .serverError e)
    | .ok db2 =>
      let db3 := { db2 with
                   users := db2.users.map (fun u =>
                     if u.id == uid then
                       { u with workspaces := u.workspaces ++ [w.id] }
                     else u) }
      (db3, .created w.id)

/-- Workspace.createDefault (Models/Workspace.js lines 465-472): create a
workspace with `isDefault: true`; the single-default pre-save hook fires and
clears the flag on every sibling. -/
def createDefault (db : DB) (uid : Nat) : DB × Nat :=
  let w : Workspace := { id := db.nextId, name := "My Workspace",
                         userId := uid, isDefault := true }
  let db1 := { db with nextId := db.nextId + 1 }
  match workspaceSave db1 w true true with
  | .error _ => (db1, w.id)
  | .ok db2 => (db2, w.id)

/-- A save of an existing workspace with `isDefault` newly set to true: the
only write path that makes an existing workspace the default, always mediated
by the single-default pre-save hook of Models/Workspace.js. -/
def setDefaultWorkspace (db : DB) (wid : Nat) : DB :=
  match db.findWorkspace wid with
  | none => db
  | some w =>
    match workspaceSave db { w with isDefault := true } true false with
    | .error _ => db
    | .ok db1 => db1

/-! ## Workspace.updateStats (Models/Workspace.js lines 428-462) -/

/-- The songs of a workspace: the `$match: {workspace: this._id}` stage. -/
def songsOfWorkspace (songs : List Song) (wid : Nat) : List Song :=
  songs.filter (fun s => s.workspace == some wid)

/-- The `$group` stage plus the `stats[0] || zeros` default: count of matched
songs, count of completed ones, sum of durations, sum of creditsUsed, over
all matched songs (an empty match yields the explicit zero record, which
coincides with the empty sums). -/
def recomputedStats (songs : List Song) (wid : Nat) : WorkspaceStats :=
  let matched := songsOfWorkspace songs wid
  if matched.isEmpty then {}
  else
    { totalSongs := (matched.length : Int)
      completedSongs := (matched.countP (fun s => s.status == .completed) : Int)
      totalDuration := (matched.map Song.duration).sum
      creditsUsed := (matched.map Song.creditsUsed).sum }

/-- `workspace.updateStats()`: aggregate over the workspace's songs, assign
the result over `this.stats`, and save. -/
def updateStats (db : DB) (w : Workspace) : Except String (DB × Workspace) :=
  match workspaceSave db { w with stats := recomputedStats db.songs w.id }
          false false with
  | .error e => .error e
  | .ok db1 => .ok (db1, { w with stats := recomputedStats db.songs w.id })

/-! ## User.deductCredits (Models/User.js lines 209-217) and the concurrency
discipline

`deductCredits` operates on an in-memory snapshot fetched earlier by
`findById`: the `credits < amount` check (line 210) and the write-back of
`credits - amount` (lines 214-216) are a read-modify-write in application
code, not an atomic conditional decrement at the storage layer.  The same
pattern appears inline in generateMusic (check at line 55, write at lines
145-147, with several awaits between).  `twoConcurrentDeducts` executes two
such calls for the same user under the interleaving read-A, read-B,
check-and-write-A, check-and-write-B, in which each call validates against
its own stale snapshot. -/

/-- The body of User.deductCredits applied to a snapshot: throws on
insufficient credits, otherwise returns the document that `save()` writes. -/
def deductCredits (u : User) (amount : Int) : Except String User :=
  if u.credits < amount then .error "Insufficient credits"
  else
    let u1 : User := { u with
                       credits := u.credits - amount
                       totalCreditsUsed := u.totalCreditsUsed + amount }
    .ok u1

/-- Two interleaved deductCredits calls that both read the stored document
before either writes.  Returns (call A succeeded, call B succeeded) and the
finally stored document (last write wins). -/
def twoConcurrentDeducts (stored : User) (a b : Int) : (Bool × Bool) × User :=
  let snapA := stored
  let snapB := stored
  let afterA :=
    match deductCredits snapA a with
    | .ok uA => (true, uA)
    | .error _ => (false, stored)
  let afterB :=
    match deductCredits snapB b with
    | .ok uB => (true, uB)
    | .error _ => (false, afterA.2)
  ((afterA.1, afterB.1), afterB.2)

/-- The same two calls executed one after the other, each reading the
document the previous one stored (the serialized execution the spec
requires). -/
def twoSequentialDeducts (stored : User) (a b : Int) : (Bool × Bool) × User :=
  let afterA :=
    match deductCredits stored a with
    | .ok uA => (true, uA)
    | .error _ => (false, stored)
  let afterB :=
    match deductCredits afterA.2 b with
    | .ok uB => (true, uB)
    | .error _ => (false, afterA.2)
  ((afterA.1, afterB.1), afterB.2)

/-! ## Operation sequences and invariants -/

/-- The write paths that create workspaces or make one the default. -/
inductive WsOp
  | createOp (uid : Nat) (name : String)
  | createDefaultOp (uid : Nat)
  | setDefaultOp (wid : Nat)
deriving DecidableEq, Repr

def applyWsOp (db : DB) : WsOp → DB
  | .createOp uid name => (createWorkspace db uid name).1
  | .createDefaultOp uid => (createDefault db uid).1
  | .setDefaultOp wid => setDefaultWorkspace db wid

/-- Number of workspaces of a user carrying the default flag. -/
def defaultCount (db : DB) (uid : Nat) : Nat :=
  db.workspaces.countP (fun w => w.userId == uid && w.isDefault)

/-- Number of non-trashed workspaces of a user carrying the default flag. -/
def nonTrashedDefaultCount (db : DB) (uid : Nat) : Nat :=
  db.workspaces.countP (fun w => w.userId == uid && w.isDefault && !w.isTrashed)

/-- Well-formedness of the workspace collection: Mongo `_id`s are unique, and
the fresh-id source is ahead of every stored id. -/
def WsWF (db : DB) : Prop :=
  (db.workspaces.map Workspace.id).Nodup ∧ ∀ w ∈ db.workspaces, w.id < db.nextId

/-- The user-facing operations that trash, permanently delete or restore a
workspace. -/
inductive TrashOp
  | trashOp (uid wid : Nat)
  | permDeleteOp (uid wid : Nat)
  | restoreOp (uid wid : Nat)
deriving DecidableEq, Repr

def applyTrashOp (db : DB) : TrashOp → DB
  | .trashOp uid wid => (deleteWorkspace db uid wid).1
  | .permDeleteOp uid wid => (permanentDeleteWorkspace db uid wid).1
  | .restoreOp uid wid => (restoreWorkspace db uid wid).1

/-- The workspace `wid` is present, default and not trashed. -/
def defaultAlive (db : DB) (wid : Nat) : Prop :=
  ∃ w ∈ db.workspaces, w.id = wid ∧ w.isDefault = true ∧ w.isTrashed = false

/-! ## Concrete databases for the refuting theorems -/

/-- One user with an exhausted balance, one workspace, one generating Job that
reserved 10 credits (the user has 20 lifetime credits used from earlier
jobs, so the refund write stays schema-valid on both deliveries). -/
def dbDuplicateCb : DB :=
  { users := [{ id := 1, credits := 0, totalCreditsUsed := 20 }]
    workspaces := [{ id := 7, name := "W", userId := 1 }]
    songs := [{ id := 3, title := "S", status := .generating,
                sunoTaskId := some "T2", creditsUsed := 10, userId := 1,
                workspace := some 7 }]
    nextId := 8 }

/-- A database holding the generating Job a well-formed webhook delivery
would complete. -/
def dbWebhook : DB :=
  { users := [{ id := 1, credits := 20 }]
    workspaces := [{ id := 7, name := "W", userId := 1 }]
    songs := [{ id := 3, title := "S", status := .generating,
                sunoTaskId := some "T1", creditsUsed := 10, userId := 1,
                workspace := some 7 }]
    nextId := 8 }

/-- A fresh account: user 1 with the signup balance of 30 credits and one
empty workspace, for the generation-endpoint witnesses. -/
def dbGen : DB :=
  { users := [{ id := 1 }]
    workspaces := [{ id := 7, name := "W", userId := 1, isDefault := true }]
    nextId := 8 }

/-- Workspace 7 with two attached songs (one completed, one pending) plus a
song of another workspace, for the stats-recomputation witness. -/
def dbStats : DB :=
  { workspaces := [{ id := 7, name := "W", userId := 1 }]
    songs := [{ id := 1, status := .completed, duration := 10, creditsUsed := 5,
                userId := 1, workspace := some 7 },
              { id := 2, status := .pending, duration := 3, creditsUsed := 2,
                userId := 1, workspace := some 7 },
              { id := 4, status := .completed, duration := 7, creditsUsed := 5,
                userId := 1, workspace := some 9 }]
    nextId := 10 }

/-! # Theorems -/

/-! ## General helper lemmas about keyed list updates -/

/-- A keyed in-place update: mapping a function that fixes non-matching
elements and sends every matching element to the same replacement `u`
rewrites `find?` to return `u` whenever a match existed. -/
theorem find?_map_update {α : Type} (p : α → Bool) (f : α → α) (u : α)
    (h1 : ∀ a, p a = false → f a = a)
    (h2 : ∀ a, p a = true → f a = u)
    (hu : p u = true) (l : List α) :
    (l.map f).find? p = (l.find? p).map (fun _ => u) := by
  induction l with
  | nil => simp
  | cons a t ih =>
    cases hpa : p a with
    | true =>
      simp only [List.map_cons, h2 a hpa,
        List.find?_cons_of_pos _ hu, List.find?_cons_of_pos _ hpa,
        Option.map_some']
    | false =>
      have hfa : ¬ p (f a) = true := by rw [h1 a hpa, hpa]; simp
      have hpa' : ¬ p a = true := by rw [hpa]; simp
      rw [List.map_cons, List.find?_cons_of_neg _ hfa,
        List.find?_cons_of_neg _ hpa', ih]

/-- A list whose key projection is duplicate-free holds at most one element
with any given key. -/
theorem countP_key_le_one {α : Type} (key : α → Nat) (l : List α) (n : Nat)
    (h : (l.map key).Nodup) : l.countP (fun a => key a == n) ≤ 1 := by
  induction l with
  | nil => simp
  | cons a t ih =>
    rw [List.map_cons, List.nodup_cons] at h
    rcases h with ⟨hnotin, hnd⟩
    rw [List.countP_cons]
    by_cases hk : key a = n
    · have hz : t.countP (fun b => key b == n) = 0 := by
        apply List.countP_eq_zero.2
        intro b hb hbn
        simp only [beq_iff_eq] at hbn
        apply hnotin
        rw [hk, ← hbn]
        exact List.mem_map_of_mem key hb
      simp [hz, hk]
    · have hk' : (key a == n) = false := by simp [hk]
      simp only [hk', if_false, add_zero]
      exact ih hnd

/-! ## C1 — callback idempotency (REFUTED by the source) -/

/-- C1: the claim that a duplicate terminal callback is a silent no-op is
false on the code.  `musicGenerationCallback` (MusicController.js 765-821)
never checks whether the Job is already terminal: on `dbDuplicateCb`, a
second identical `failed` callback refunds the 10 reserved credits a second
time (balance 10 after one delivery, 20 after two), and a second identical
`completed` callback re-increments the workspace completed-songs counter
(1 after one delivery, 2 after two).  `processSongCallback` in
webhookRoutes.js has the same missing guard. -/
theorem C1_duplicate_callback_not_idempotent :
    (((musicGenerationCallback dbDuplicateCb 3
        { status := "failed" }).1.findUser 1).map User.credits = some 10 ∧
     (((musicGenerationCallback
          (musicGenerationCallback dbDuplicateCb 3 { status := "failed" }).1
          3 { status := "failed" }).1.findUser 1).map User.credits
        = some 20)) ∧
    (((musicGenerationCallback dbDuplicateCb 3
        { status := "completed", duration := some 120 }).1.findWorkspace 7).map
          (fun w => w.stats.completedSongs) = some 1 ∧
     ((musicGenerationCallback
         (musicGenerationCallback dbDuplicateCb 3
           { status := "completed", duration := some 120 }).1
         3 { status := "completed", duration := some 120 }).1.findWorkspace 7).map
           (fun w => w.stats.completedSongs) = some 2) := by decide

/-! ## C2 — webhook acknowledgment (REFUTED by the source) -/

/-- C2: the claim that the /suno handler answers `200 {success:true}` for
every structurally accepted payload is false on the code: the handler's
response expression reads `songsToProcess` outside the block that declares
it, so every request — the happy path with `code = 200` included — throws a
ReferenceError and is answered `500 {success:false}` by the catch block.
The per-job processing still happens before the throw (third conjunct: the
Job did reach `completed`). -/
theorem C2_webhook_always_responds_500 :
    (sunoWebhook dbWebhook
      { code := 200,
        data := some (.nestedArr [{ id := some "T1",
                                    audio_url := some "http://cdn/a.mp3" }]) }
      (fun _ => .ok "http://local/a.mp3")).2
      = { status := 500, success := false } ∧
    (sunoWebhook dbWebhook
      { code := 500, msg := some "generation failed",
        data := some (.obj {} (some "T1")) }
      (fun _ => .ok "unused")).2
      = { status := 500, success := false } ∧
    ((sunoWebhook dbWebhook
      { code := 200,
        data := some (.nestedArr [{ id := some "T1",
                                    audio_url := some "http://cdn/a.mp3" }]) }
      (fun _ => .ok "http://local/a.mp3")).1.findSong 3).map Song.status
      = some .completed := by decide

/-! ## C9 — atomicity of the credit reservation (REFUTED by the source) -/

/-- C9: the claim that two concurrent reservations that together exceed the
balance let exactly one succeed is false on the code: `deductCredits` checks
and writes against an in-memory snapshot, so under the interleaving in
`twoConcurrentDeducts` two reservations of 10 against a balance of 10 both
succeed, and the stored document records a single deduction (the lost
update).  The serialized execution the spec prescribes lets exactly one
succeed. -/
theorem C9_concurrent_reserve_lost_update :
    (twoConcurrentDeducts { id := 1, credits := 10 } 10 10).1 = (true, true) ∧
    ((twoConcurrentDeducts { id := 1, credits := 10 } 10 10).2).credits = 0 ∧
    ((twoConcurrentDeducts { id := 1, credits := 10 } 10 10).2).totalCreditsUsed
      = 10 ∧
    (twoSequentialDeducts { id := 1, credits := 10 } 10 10).1
      = (true, false) := by decide

/-! ## C3 — remote-URL fallback on download failure (claim corrected) -/

/-- C3 counterexample: the claim says a Job whose success callback carries an
audio URL still ends `completed` when the local download fails — but in the
webhook path (processSongCallback, webhookRoutes.js 97-105) a failed download
marks the Job `failed`, with the download error recorded and no remote-URL
fallback. -/
theorem C3_webhook_download_failure_counterexample :
    ((processSongCallback dbWebhook
        { id := some "T1", audio_url := some "http://cdn/a.mp3" }
        (fun _ => .error "timeout")).findSong 3).map Song.status
      = some .failed := by decide

/-- C3 (amended): the two success-callback paths diverge on a failed local
download.  In the webhook path (processSongCallback) the Job is marked
`failed` with the download error recorded and the workspace stats untouched —
there is no remote-URL fallback.  Only the manual status-poll path
(checkSongStatus, MusicController.js 244-247) retains the fallback: there a
failed download leaves the Job `completed` with `audioUrl` set to the remote
provider URL. -/
theorem C3_download_failure_fallback_only_in_poll_path :
    (∀ (db : DB) (sd : SunoSongData) (tid : String) (song : Song)
       (url e : String) (download : String → Except String String),
       sd.id = some tid →
       db.findSongByTaskId tid = some song →
       sd.audio_url = some url →
       download url = .error e →
       song.valid = true →
       ((processSongCallback db sd download).findSong song.id).map Song.status
          = some SongStatus.failed ∧
       (processSongCallback db sd download).workspaces = db.workspaces) ∧
    (∀ (db : DB) (songId userId : Nat) (song : Song) (sc : StatusCheckResult)
       (songData : SunoSongData) (rest : List SunoSongData) (url : String)
       (download : String → Except String Unit),
       db.songs.find? (fun s => s.id == songId && s.userId == userId)
         = some song →
       song.status = .generating → song.sunoTaskId.isSome = true →
       sc.success = true → sc.status = "COMPLETED" →
       sc.songs = songData :: rest → songData.audio_url = some url →
       (∃ e, download url = .error e) →
       ∃ s, (checkSongStatus db songId userId (.ok sc) download).2
              = .okSong s ∧
            s.status = .completed ∧ s.audioUrl = some url) := by
  constructor
  · intro db sd tid song url e download hid hfound hurl hdl hvalid
    have hmem : song ∈ db.songs := List.mem_of_find?_eq_some hfound
    have hFvalid : Song.valid { song with
        status := .failed
        errorMessage := some ("Failed to download audio: " ++ e) } = true := by
      simpa [Song.valid] using hvalid
    have hres : processSongCallback db sd download
        = db.setSong { song with
            status := .failed
            errorMessage := some ("Failed to download audio: " ++ e) } := by
      unfold processSongCallback
      rw [hid]
      simp only [hfound, hurl, hdl, songSave, hFvalid, if_true]
    rw [hres]
    refine ⟨?_, rfl⟩
    unfold DB.setSong DB.findSong
    have hmap := find?_map_update (fun s => s.id == song.id)
      (fun v => if v.id ==
          (Song.id { song with
            status := .failed
            errorMessage := some ("Failed to download audio: " ++ e) })
        then { song with
            status := .failed
            errorMessage := some ("Failed to download audio: " ++ e) }
        else v)
      { song with
        status := .failed
        errorMessage := some ("Failed to download audio: " ++ e) }
      (by intro a ha
          have hne : ¬ a.id = song.id := by simpa using ha
          simp [hne])
      (by intro a ha
          have heq : a.id = song.id := by simpa using ha
          simp [heq])
      (by simp) db.songs
    simp only [hmap]
    have hsome : (db.songs.find? (fun s => s.id == song.id)).isSome := by
      rw [List.find?_isSome]
      exact ⟨song, hmem, by simp⟩
    rcases Option.isSome_iff_exists.1 hsome with ⟨a, ha⟩
    rw [ha]
    rfl
  · intro db songId userId song sc songData rest url download
      hfind hst htask hsucc hcompl hsongs hurl hdl
    rcases hdl with ⟨e, hdl⟩
    unfold checkSongStatus
    rw [hfind]
    simp only [hst, htask, and_self, if_true, hsucc, hsongs, hcompl,
      hurl, hdl]
    split
    · exact ⟨_, rfl, rfl, rfl⟩
    · exact ⟨_, rfl, rfl, rfl⟩

/-- Witness for the amended C3 at concrete inputs: a failed download on the
webhook path leaves Job 3 `failed` with the workspace untouched, while the
same failure on the poll path leaves it `completed` with the remote URL. -/
theorem C3_download_failure_fallback_only_in_poll_path_witness :
    (((processSongCallback dbWebhook
        { id := some "T1", audio_url := some "http://cdn/a.mp3" }
        (fun _ => .error "timeout")).findSong 3).map Song.status
       = some SongStatus.failed ∧
     (processSongCallback dbWebhook
        { id := some "T1", audio_url := some "http://cdn/a.mp3" }
        (fun _ => .error "timeout")).workspaces = dbWebhook.workspaces) ∧
    (∃ s, (checkSongStatus dbWebhook 3 1
             (.ok { success := true, status := "COMPLETED",
                    songs := [{ audio_url := some "http://cdn/a.mp3" }] })
             (fun _ => .error "ReferenceError: path is not defined")).2
            = .okSong s ∧
          s.status = .completed ∧ s.audioUrl = some "http://cdn/a.mp3") :=
  ⟨C3_download_failure_fallback_only_in_poll_path.1 dbWebhook
      { id := some "T1", audio_url := some "http://cdn/a.mp3" } "T1"
      { id := 3, title := "S", status := .generating, sunoTaskId := some "T1",
        creditsUsed := 10, userId := 1, workspace := some 7 }
      "http://cdn/a.mp3" "timeout" (fun _ => .error "timeout")
      rfl (by decide) rfl rfl (by decide),
   C3_download_failure_fallback_only_in_poll_path.2 dbWebhook 3 1
      { id := 3, title := "S", status := .generating, sunoTaskId := some "T1",
        creditsUsed := 10, userId := 1, workspace := some 7 }
      { success := true, status := "COMPLETED",
        songs := [{ audio_url := some "http://cdn/a.mp3" }] }
      { audio_url := some "http://cdn/a.mp3" } [] "http://cdn/a.mp3"
      (fun _ => .error "ReferenceError: path is not defined")
      (by decide) rfl rfl rfl rfl rfl rfl
      ⟨"ReferenceError: path is not defined", rfl⟩⟩

/-! ## C4 — insufficient credits rejected before any side effect -/

/-- C4: a generation request by a user whose balance is strictly below the
kind's credit cost is rejected with the insufficient-funds error before any
side effect: `generateMusic` returns the database unchanged — no Job row, no
workspace change, no provider-call trace entry, no balance change — together
with the 400 response. -/
theorem C4_insufficient_credits_no_side_effect
    (db : DB) (req : GenReq) (submitRes : Except String String) (u : User)
    (hprompt : ¬ (jsTrim req.prompt) = "")
    (huser : db.findUser req.userId = some u)
    (hcred : u.credits < creditCostFor req.model_version) :
    generateMusic db req submitRes =
      (db, .insufficientCredits (creditCostFor req.model_version) u.credits) := by
  unfold generateMusic
  simp only [if_neg hprompt, huser]
  simp [hcred]

/-- Witness for C4 at a concrete input: a user with 5 credits requesting the
default kind costing 10 is turned away with the database unchanged. -/
theorem C4_insufficient_credits_no_side_effect_witness :
    generateMusic { users := [{ id := 1, credits := 5 }], nextId := 2 }
      { prompt := "a song", userId := 1 } (Except.ok "T1")
      = ({ users := [{ id := 1, credits := 5 }], nextId := 2 },
         .insufficientCredits (creditCostFor "v4") 5) :=
  C4_insufficient_credits_no_side_effect
    { users := [{ id := 1, credits := 5 }], nextId := 2 }
    { prompt := "a song", userId := 1 } (Except.ok "T1")
    { id := 1, credits := 5 } (by decide) (by decide) (by decide)

/-! ## C5 — provider submit failure: Job failed, no charge -/

/-- The credit-cost table yields a positive cost for every model string. -/
theorem creditCostFor_pos (mv : String) : 0 < creditCostFor mv := by
  unfold creditCostFor
  split
  · decide
  · split
    · decide
    · split
      · decide
      · decide

theorem songSaveNew_ok (db : DB) (s : Song) (h : s.valid = true) :
    songSaveNew db s = .ok (db.insertSong s) := by
  simp [songSaveNew, h]

theorem songSave_ok (db : DB) (s : Song) (h : s.valid = true) :
    songSave db s = .ok (db.setSong s) := by
  simp [songSave, h]

theorem userSave_ok (db : DB) (u : User) (h : u.valid = true) :
    userSave db u = .ok (db.setUser u) := by
  simp [userSave, h]

theorem workspaceSave_update_ok (db : DB) (w : Workspace)
    (h : w.statsValid = true) :
    workspaceSave db w false false = .ok (db.setWorkspace w) := by
  simp [workspaceSave, h]

theorem workspaceSave_insert_ok (db : DB) (w : Workspace)
    (h : w.statsValid = true) :
    workspaceSave db w false true = .ok (db.insertWorkspace w) := by
  simp [workspaceSave, h]

/-- The keyed replacement of a freshly appended row rewrites exactly that
row. -/
theorem map_setSong_append_fresh (songs : List Song) (s sF : Song)
    (hid : sF.id = s.id) (hfr : ∀ v ∈ songs, ¬ v.id = s.id) :
    (songs ++ [s]).map (fun v => if v.id == sF.id then sF else v)
      = songs ++ [sF] := by
  rw [List.map_append]
  congr 1
  · have h1 : ∀ v ∈ songs,
        (fun v => if v.id == sF.id then sF else v) v = id v := by
      intro v hv
      have hne : ¬ v.id = sF.id := by rw [hid]; exact hfr v hv
      simp [hne]
    rw [List.map_congr_left h1, List.map_id]
  · simp [hid]

/-- The creation/submission stage with a failing provider call: exactly one
Job row is appended, it ends `failed` carrying the provider error, and the
user collection — hence every balance — is untouched. -/
theorem generateMusicWithWorkspace_submit_error
    (db1 : DB) (req : GenReq) (ws : Workspace) (user1 : User) (msg : String)
    (hwv : ws.statsValid = true)
    (hfresh : ∀ v ∈ db1.songs, ¬ v.id = db1.nextId) :
    ∃ s,
      (generateMusicWithWorkspace db1 req ws user1 (.error msg)).2
        = .submitFailed msg ∧
      (generateMusicWithWorkspace db1 req ws user1 (.error msg)).1.songs
        = db1.songs ++ [s] ∧
      s.status = .failed ∧ s.errorMessage = some msg ∧
      (generateMusicWithWorkspace db1 req ws user1 (.error msg)).1.users
        = db1.users := by
  have hsv : Song.valid
      { id := db1.nextId, title := jsOrStr (some req.title) "Untitled Song",
        status := .pending, creditsUsed := creditCostFor req.model_version,
        userId := req.userId, workspace := some ws.id } = true := by
    simp [Song.valid]
    exact le_of_lt (creditCostFor_pos _)
  have hsv2 : Song.valid
      { id := db1.nextId, title := jsOrStr (some req.title) "Untitled Song",
        status := .failed, creditsUsed := creditCostFor req.model_version,
        errorMessage := some msg,
        userId := req.userId, workspace := some ws.id } = true := by
    simp [Song.valid]
    exact le_of_lt (creditCostFor_pos _)
  have hws1 : Workspace.statsValid
      { ws with
        songs := ws.songs ++ [db1.nextId]
        stats := { ws.stats with
                   totalSongs := ws.stats.totalSongs + 1 } } = true := by
    simp only [Workspace.statsValid, Bool.and_eq_true, decide_eq_true_eq]
      at hwv ⊢
    exact ⟨⟨⟨by omega, hwv.1.1.2⟩, hwv.1.2⟩, hwv.2⟩
  refine ⟨
    { id := db1.nextId, title := jsOrStr (some req.title) "Untitled Song",
      status := .failed, creditsUsed := creditCostFor req.model_version,
      errorMessage := some msg,
      userId := req.userId, workspace := some ws.id }, ?_, ?_, rfl, rfl, ?_⟩
  · simp only [generateMusicWithWorkspace, songSaveNew_ok _ _ hsv,
      workspaceSave_update_ok _ _ hws1, generateMusicApiFailure,
      songSave_ok _ _ hsv2]
  · simp only [generateMusicWithWorkspace, songSaveNew_ok _ _ hsv,
      workspaceSave_update_ok _ _ hws1, generateMusicApiFailure,
      songSave_ok _ _ hsv2]
    show (DB.setSong _ _).songs = _
    unfold DB.setSong DB.insertSong
    exact map_setSong_append_fresh db1.songs _ _ rfl hfresh
  · simp only [generateMusicWithWorkspace, songSaveNew_ok _ _ hsv,
      workspaceSave_update_ok _ _ hws1, generateMusicApiFailure,
      songSave_ok _ _ hsv2]
    rfl

theorem workspaceSave_default_insert_ok (db : DB) (w : Workspace)
    (hd : w.isDefault = true) (h : w.statsValid = true) :
    workspaceSave db w true true
      = .ok ((clearOtherDefaults db w.userId w.id).insertWorkspace w) := by
  simp [workspaceSave, h, hd]

/-- C5: for every generation request whose provider submission fails, the
created Job is marked `failed` immediately (with the provider error recorded)
and the user's credit balance ends equal to its pre-request value — the
source deducts only after a successful submission, so nothing was charged and
nothing needs refunding; the user is never left charged for an unsubmitted
Job. -/
theorem C5_submit_failure_fails_job_without_charge
    (db : DB) (req : GenReq) (u : User) (msg : String)
    (hprompt : ¬ jsTrim req.prompt = "")
    (huser : db.findUser req.userId = some u)
    (hcred : ¬ u.credits < creditCostFor req.model_version)
    (hucred : 0 ≤ u.credits) (hutcu : 0 ≤ u.totalCreditsUsed)
    (hfresh : ∀ s ∈ db.songs, s.id < db.nextId)
    (hws : match req.workspace_id with
           | some wid => ∃ w, db.findWorkspaceOwned wid req.userId = some w ∧
                              w.statsValid = true
           | none => ∀ w, db.findDefaultWorkspace req.userId = some w →
                          w.statsValid = true) :
    ∃ s,
      (generateMusic db req (.error msg)).2 = .submitFailed msg ∧
      (generateMusic db req (.error msg)).1.songs = db.songs ++ [s] ∧
      s.status = .failed ∧ s.errorMessage = some msg ∧
      ((generateMusic db req (.error msg)).1.findUser req.userId).map
          User.credits = some u.credits := by
  have huid : u.id = req.userId := by
    have := List.find?_some huser
    simpa using this
  cases hwid : req.workspace_id with
  | some wid =>
    rw [hwid] at hws
    rcases hws with ⟨w, hw, hwvalid⟩
    have hres : resolveGenWorkspace db req u = .ok (db, w, u) := by
      unfold resolveGenWorkspace
      rw [hwid]
      simp [hw]
    have hsimp : generateMusic db req (.error msg)
        = generateMusicWithWorkspace db req w u (.error msg) := by
      unfold generateMusic
      rw [if_neg hprompt]
      simp only [huser, if_neg hcred, hres]
    rcases generateMusicWithWorkspace_submit_error db req w u msg hwvalid
        (fun v hv => by have := hfresh v hv; omega) with ⟨s, h1, h2, h3, h4, h5⟩
    refine ⟨s, by rw [hsimp]; exact h1, by rw [hsimp]; exact h2, h3, h4, ?_⟩
    rw [hsimp]
    unfold DB.findUser
    unfold DB.findUser at huser
    rw [h5, huser]
    rfl
  | none =>
    rw [hwid] at hws
    cases hdef : db.findDefaultWorkspace req.userId with
    | some w =>
      have hwvalid := hws w hdef
      have hres : resolveGenWorkspace db req u = .ok (db, w, u) := by
        unfold resolveGenWorkspace
        rw [hwid]
        simp [hdef]
      have hsimp : generateMusic db req (.error msg)
          = generateMusicWithWorkspace db req w u (.error msg) := by
        unfold generateMusic
        rw [if_neg hprompt]
        simp only [huser, if_neg hcred, hres]
      rcases generateMusicWithWorkspace_submit_error db req w u msg hwvalid
          (fun v hv => by have := hfresh v hv; omega) with
        ⟨s, h1, h2, h3, h4, h5⟩
      refine ⟨s, by rw [hsimp]; exact h1, by rw [hsimp]; exact h2, h3, h4, ?_⟩
      rw [hsimp]
      unfold DB.findUser
      unfold DB.findUser at huser
      rw [h5, huser]
      rfl
    | none =>
      have hwsv : Workspace.statsValid
          { id := db.nextId, name := "My Workspace", userId := req.userId,
            isDefault := true } = true := rfl
      have huv : User.valid
          { u with workspaces := u.workspaces ++ [db.nextId] } = true := by
        simp only [User.valid, Bool.and_eq_true, decide_eq_true_eq]
        exact ⟨hucred, hutcu⟩
      have hres : resolveGenWorkspace db req u
          = .ok (((clearOtherDefaults { db with nextId := db.nextId + 1 }
                    req.userId db.nextId).insertWorkspace
                  { id := db.nextId, name := "My Workspace",
                    userId := req.userId, isDefault := true }).setUser
                 { u with workspaces := u.workspaces ++ [db.nextId] },
                { id := db.nextId, name := "My Workspace",
                  userId := req.userId, isDefault := true },
                { u with workspaces := u.workspaces ++ [db.nextId] }) := by
        unfold resolveGenWorkspace
        rw [hwid]
        simp only [hdef, workspaceSave_default_insert_ok _ _ rfl hwsv,
          userSave_ok _ _ huv]
      have hsimp : generateMusic db req (.error msg)
          = generateMusicWithWorkspace
              (((clearOtherDefaults { db with nextId := db.nextId + 1 }
                  req.userId db.nextId).insertWorkspace
                { id := db.nextId, name := "My Workspace",
                  userId := req.userId, isDefault := true }).setUser
               { u with workspaces := u.workspaces ++ [db.nextId] })
              req
              { id := db.nextId, name := "My Workspace",
                userId := req.userId, isDefault := true }
              { u with workspaces := u.workspaces ++ [db.nextId] }
              (.error msg) := by
        unfold generateMusic
        rw [if_neg hprompt]
        simp only [huser, if_neg hcred, hres]
      rcases generateMusicWithWorkspace_submit_error
          (((clearOtherDefaults { db with nextId := db.nextId + 1 }
              req.userId db.nextId).insertWorkspace
            { id := db.nextId, name := "My Workspace",
              userId := req.userId, isDefault := true }).setUser
           { u with workspaces := u.workspaces ++ [db.nextId] })
          req
          { id := db.nextId, name := "My Workspace",
            userId := req.userId, isDefault := true }
          { u with workspaces := u.workspaces ++ [db.nextId] }
          msg rfl
          (fun v hv => by
            have := hfresh v hv
            show ¬ v.id = db.nextId + 1
            omega) with ⟨s, h1, h2, h3, h4, h5⟩
      refine ⟨s, by rw [hsimp]; exact h1, by rw [hsimp]; exact h2, h3, h4, ?_⟩
      rw [hsimp]
      unfold DB.findUser
      rw [h5]
      show (((db.users.map _).find? _).map _) = _
      rw [find?_map_update (fun v => v.id == req.userId) _
            { u with workspaces := u.workspaces ++ [db.nextId] }
            (by intro a ha
                have hne : ¬ a.id = req.userId := by simpa using ha
                have hne2 : ¬ a.id = u.id := by rw [huid]; exact hne
                simp [hne2])
            (by intro a ha
                have heq : a.id = req.userId := by simpa using ha
                have heq2 : a.id = u.id := by rw [huid]; exact heq
                simp [heq2])
            (by simp [huid]) db.users]
      unfold DB.findUser at huser
      rw [huser]
      rfl

/-- Witness for C5 at a concrete input: a failing submission for a request
against workspace 7 answers 500 submit-failed and leaves user 1's balance at
the original 30 credits. -/
theorem C5_submit_failure_fails_job_without_charge_witness :
    (generateMusic dbGen
       { prompt := "a song", workspace_id := some 7, userId := 1 }
       (.error "api down")).2 = .submitFailed "api down" ∧
    ((generateMusic dbGen
       { prompt := "a song", workspace_id := some 7, userId := 1 }
       (.error "api down")).1.findUser 1).map User.credits = some 30 := by
  rcases C5_submit_failure_fails_job_without_charge dbGen
      { prompt := "a song", workspace_id := some 7, userId := 1 }
      { id := 1 } "api down"
      (by decide) (by decide) (by decide) (by decide) (by decide) (by decide)
      ⟨{ id := 7, name := "W", userId := 1, isDefault := true },
       by decide, by decide⟩ with
    ⟨s, h1, h2, h3, h4, h5⟩
  exact ⟨h1, h5⟩

/-! ## C10 — extend/cover never call the provider -/

/-- C10: a validated, funded extend-music (resp. cover-audio) request deducts
the full credit cost of 10 (resp. 15), leaves the Job in status `generating`
under a locally fabricated task id `extend_now_rand` (resp. `cover_now_rand`)
— and the provider-call trace is unchanged: no external job is ever
submitted, so no provider webhook keyed on a real task can ever complete such
a Job. -/
theorem C10_extend_cover_fabricate_task_ids :
    (∀ (db : DB) (req : ExtendReq) (u : User) (ws : Workspace) (now : Nat)
       (rand : String),
       (jsFalsy req.audio_url || req.prompt == "") = false →
       db.findUser req.userId = some u →
       ¬ u.credits < 10 → 0 ≤ u.totalCreditsUsed →
       (match req.workspace_id with
        | some wid => db.findWorkspaceOwned wid req.userId
        | none => db.findDefaultWorkspace req.userId) = some ws →
       ws.statsValid = true →
       (∀ s ∈ db.songs, s.id < db.nextId) →
       (extendMusic db req now rand).2
         = .started db.nextId ("extend_" ++ toString now ++ "_" ++ rand) ∧
       (extendMusic db req now rand).1.providerCalls = db.providerCalls ∧
       (∃ s, (extendMusic db req now rand).1.songs = db.songs ++ [s] ∧
             s.status = .generating ∧
             s.sunoTaskId = some ("extend_" ++ toString now ++ "_" ++ rand) ∧
             s.creditsUsed = 10) ∧
       ((extendMusic db req now rand).1.findUser req.userId).map User.credits
         = some (u.credits - 10)) ∧
    (∀ (db : DB) (audio_url : Option String) (prompt : String) (userId : Nat)
       (u : User) (ws : Workspace) (now : Nat) (rand : String),
       (jsFalsy audio_url || prompt == "") = false →
       db.findUser userId = some u →
       ¬ u.credits < 15 → 0 ≤ u.totalCreditsUsed →
       db.findDefaultWorkspace userId = some ws →
       ws.statsValid = true →
       (∀ s ∈ db.songs, s.id < db.nextId) →
       (coverAudio db audio_url prompt userId now rand).2
         = .started db.nextId ("cover_" ++ toString now ++ "_" ++ rand) ∧
       (coverAudio db audio_url prompt userId now rand).1.providerCalls
         = db.providerCalls ∧
       (∃ s, (coverAudio db audio_url prompt userId now rand).1.songs
               = db.songs ++ [s] ∧
             s.status = .generating ∧
             s.sunoTaskId = some ("cover_" ++ toString now ++ "_" ++ rand) ∧
             s.creditsUsed = 15) ∧
       ((coverAudio db audio_url prompt userId now rand).1.findUser
           userId).map User.credits = some (u.credits - 15)) := by
  constructor
  · intro db req u ws now rand hval huser hcred hutcu hws hwv hfresh
    have huid : u.id = req.userId := by
      have := List.find?_some huser
      simpa using this
    have hvalP : ¬ ((jsFalsy req.audio_url || req.prompt == "") = true) := by
      rw [hval]; simp
    have hws1 : Workspace.statsValid
        { ws with songs := ws.songs ++ [db.nextId] } = true := hwv
    have hsv : Song.valid
        { id := db.nextId, title := jsOrStr (some req.title) "Extended Song",
          status := .pending, creditsUsed := 10, userId := req.userId,
          workspace := some ws.id, originalAudioUrl := req.audio_url }
        = true := rfl
    have hsv1 : Song.valid
        { id := db.nextId, title := jsOrStr (some req.title) "Extended Song",
          status := .generating,
          sunoTaskId := some ("extend_" ++ toString now ++ "_" ++ rand),
          creditsUsed := 10, userId := req.userId,
          workspace := some ws.id, originalAudioUrl := req.audio_url }
        = true := rfl
    have huv : User.valid
        { u with credits := u.credits - 10,
                 totalCreditsUsed := u.totalCreditsUsed + 10 } = true := by
      simp only [User.valid, Bool.and_eq_true, decide_eq_true_eq]
      constructor
      · omega
      · omega
    have hrun : extendMusic db req now rand
        = ((((({ db with nextId := db.nextId + 1 }).insertSong
                { id := db.nextId,
                  title := jsOrStr (some req.title) "Extended Song",
                  status := .pending, creditsUsed := 10, userId := req.userId,
                  workspace := some ws.id,
                  originalAudioUrl := req.audio_url }).setWorkspace
              { ws with songs := ws.songs ++ [db.nextId] }).setSong
              { id := db.nextId,
                title := jsOrStr (some req.title) "Extended Song",
                status := .generating,
                sunoTaskId := some ("extend_" ++ toString now ++ "_" ++ rand),
                creditsUsed := 10, userId := req.userId,
                workspace := some ws.id,
                originalAudioUrl := req.audio_url }).setUser
            { u with credits := u.credits - 10,
                     totalCreditsUsed := u.totalCreditsUsed + 10 },
           .started db.nextId ("extend_" ++ toString now ++ "_" ++ rand)) := by
      unfold extendMusic
      rw [if_neg hvalP]
      simp only [huser, if_neg hcred, hws, songSaveNew_ok _ _ hsv,
        workspaceSave_update_ok _ _ hws1, songSave_ok _ _ hsv1,
        userSave_ok _ _ huv]
    refine ⟨by rw [hrun], by rw [hrun]; rfl, ?_, ?_⟩
    · refine ⟨{ id := db.nextId,
                title := jsOrStr (some req.title) "Extended Song",
                status := .generating,
                sunoTaskId := some ("extend_" ++ toString now ++ "_" ++ rand),
                creditsUsed := 10, userId := req.userId,
                workspace := some ws.id,
                originalAudioUrl := req.audio_url }, ?_, rfl, rfl, rfl⟩
      rw [hrun]
      show ((db.songs ++ [_]).map _) = _
      exact map_setSong_append_fresh db.songs _ _ rfl
        (fun v hv => by
          have := hfresh v hv
          show ¬ v.id = db.nextId
          omega)
    · rw [hrun]
      unfold DB.findUser
      show (((db.users.map _).find? _).map _) = _
      rw [find?_map_update (fun v => v.id == req.userId) _
            { u with credits := u.credits - 10,
                     totalCreditsUsed := u.totalCreditsUsed + 10 }
            (by intro a ha
                have hne : ¬ a.id = req.userId := by simpa using ha
                have hne2 : ¬ a.id = u.id := by rw [huid]; exact hne
                simp [hne2])
            (by intro a ha
                have heq : a.id = req.userId := by simpa using ha
                have heq2 : a.id = u.id := by rw [huid]; exact heq
                simp [heq2])
            (by simp [huid]) db.users]
      unfold DB.findUser at huser
      rw [huser]
      rfl
  · intro db audio_url prompt userId u ws now rand hval huser hcred hutcu
      hws hwv hfresh
    have huid : u.id = userId := by
      have := List.find?_some huser
      simpa using this
    have hvalP : ¬ ((jsFalsy audio_url || prompt == "") = true) := by
      rw [hval]; simp
    have hws1 : Workspace.statsValid
        { ws with songs := ws.songs ++ [db.nextId] } = true := hwv
    have hsv : Song.valid
        { id := db.nextId, title := "Audio Cover",
          status := .pending, creditsUsed := 15, userId := userId,
          workspace := some ws.id, originalAudioUrl := audio_url }
        = true := rfl
    have hsv1 : Song.valid
        { id := db.nextId, title := "Audio Cover",
          status := .generating,
          sunoTaskId := some ("cover_" ++ toString now ++ "_" ++ rand),
          creditsUsed := 15, userId := userId,
          workspace := some ws.id, originalAudioUrl := audio_url }
        = true := rfl
    have huv : User.valid
        { u with credits := u.credits - 15,
                 totalCreditsUsed := u.totalCreditsUsed + 15 } = true := by
      simp only [User.valid, Bool.and_eq_true, decide_eq_true_eq]
      constructor
      · omega
      · omega
    have hrun : coverAudio db audio_url prompt userId now rand
        = ((((({ db with nextId := db.nextId + 1 }).insertSong
                { id := db.nextId, title := "Audio Cover",
                  status := .pending, creditsUsed := 15, userId := userId,
                  workspace := some ws.id,
                  originalAudioUrl := audio_url }).setWorkspace
              { ws with songs := ws.songs ++ [db.nextId] }).setSong
              { id := db.nextId, title := "Audio Cover",
                status := .generating,
                sunoTaskId := some ("cover_" ++ toString now ++ "_" ++ rand),
                creditsUsed := 15, userId := userId,
                workspace := some ws.id,
                originalAudioUrl := audio_url }).setUser
            { u with credits := u.credits - 15,
                     totalCreditsUsed := u.totalCreditsUsed + 15 },
           .started db.nextId ("cover_" ++ toString now ++ "_" ++ rand)) := by
      unfold coverAudio
      rw [if_neg hvalP]
      simp only [huser, if_neg hcred, hws, songSaveNew_ok _ _ hsv,
        workspaceSave_update_ok _ _ hws1, songSave_ok _ _ hsv1,
        userSave_ok _ _ huv]
    refine ⟨by rw [hrun], by rw [hrun]; rfl, ?_, ?_⟩
    · refine ⟨{ id := db.nextId, title := "Audio Cover",
                status := .generating,
                sunoTaskId := some ("cover_" ++ toString now ++ "_" ++ rand),
                creditsUsed := 15, userId := userId,
                workspace := some ws.id,
                originalAudioUrl := audio_url }, ?_, rfl, rfl, rfl⟩
      rw [hrun]
      show ((db.songs ++ [_]).map _) = _
      exact map_setSong_append_fresh db.songs _ _ rfl
        (fun v hv => by
          have := hfresh v hv
          show ¬ v.id = db.nextId
          omega)
    · rw [hrun]
      unfold DB.findUser
      show (((db.users.map _).find? _).map _) = _
      rw [find?_map_update (fun v => v.id == userId) _
            { u with credits := u.credits - 15,
                     totalCreditsUsed := u.totalCreditsUsed + 15 }
            (by intro a ha
                have hne : ¬ a.id = userId := by simpa using ha
                have hne2 : ¬ a.id = u.id := by rw [huid]; exact hne
                simp [hne2])
            (by intro a ha
                have heq : a.id = userId := by simpa using ha
                have heq2 : a.id = u.id := by rw [huid]; exact heq
                simp [heq2])
            (by simp [huid]) db.users]
      unfold DB.findUser at huser
      rw [huser]
      rfl

/-- Witness for C10 at a concrete input: on the fresh account, an extend
request deducts 10 credits with task id `extend_42_r1` and no provider call,
and a cover request deducts 15 credits with task id `cover_42_r1` and no
provider call. -/
theorem C10_extend_cover_fabricate_task_ids_witness :
    ((extendMusic dbGen
        { audio_url := some "http://a/x.mp3", prompt := "p", userId := 1 }
        42 "r1").2 = .started 8 "extend_42_r1" ∧
     (extendMusic dbGen
        { audio_url := some "http://a/x.mp3", prompt := "p", userId := 1 }
        42 "r1").1.providerCalls = dbGen.providerCalls ∧
     ((extendMusic dbGen
        { audio_url := some "http://a/x.mp3", prompt := "p", userId := 1 }
        42 "r1").1.findUser 1).map User.credits = some 20) ∧
    ((coverAudio dbGen (some "http://a/x.mp3") "p" 1 42 "r1").2
        = .started 8 "cover_42_r1" ∧
     (coverAudio dbGen (some "http://a/x.mp3") "p" 1 42 "r1").1.providerCalls
        = dbGen.providerCalls ∧
     ((coverAudio dbGen (some "http://a/x.mp3") "p" 1 42 "r1").1.findUser
         1).map User.credits = some 15) := by
  have h1 := C10_extend_cover_fabricate_task_ids.1 dbGen
    { audio_url := some "http://a/x.mp3", prompt := "p", userId := 1 }
    { id := 1 } { id := 7, name := "W", userId := 1, isDefault := true }
    42 "r1"
    (by decide) (by decide) (by decide) (by decide) (by decide) (by decide)
    (by decide)
  have h2 := C10_extend_cover_fabricate_task_ids.2 dbGen
    (some "http://a/x.mp3") "p" 1
    { id := 1 } { id := 7, name := "W", userId := 1, isDefault := true }
    42 "r1"
    (by decide) (by decide) (by decide) (by decide) (by decide) (by decide)
    (by decide)
  exact ⟨⟨h1.1, h1.2.1, h1.2.2.2⟩, ⟨h2.1, h2.2.1, h2.2.2.2⟩⟩

/-! ## C6 — at most one default workspace per owner -/

theorem workspaceSave_default_update_ok (db : DB) (w : Workspace)
    (hd : w.isDefault = true) (h : w.statsValid = true) :
    workspaceSave db w true false
      = .ok ((clearOtherDefaults db w.userId w.id).setWorkspace w) := by
  simp [workspaceSave, h, hd]

/-- A per-element rewrite that preserves the key leaves the key list
unchanged. -/
theorem map_key_of_id_preserving {α : Type} (key : α → Nat) (f : α → α)
    (h : ∀ a, key (f a) = key a) (l : List α) :
    (l.map f).map key = l.map key := by
  rw [List.map_map]
  exact List.map_congr_left (fun a _ => h a)

/-- The hook's clearing pass preserves every document id. -/
theorem clearOther_id (uid keep : Nat) (v : Workspace) :
    (if v.userId == uid && v.id != keep && v.isDefault
     then { v with isDefault := false } else v).id = v.id := by
  by_cases h : (v.userId == uid && v.id != keep && v.isDefault) = true
  · rw [if_pos h]
  · rw [if_neg h]

/-- The non-trashed default count is bounded by the overall default count. -/
theorem nonTrashed_le_default (db : DB) (uid : Nat) :
    nonTrashedDefaultCount db uid ≤ defaultCount db uid := by
  apply List.countP_mono_left
  intro w _ h
  simp only [Bool.and_eq_true] at h ⊢
  exact h.1

/-- Case analysis for the hook’s per-element clearing rewrite. -/
theorem clearF_cases (uid keep : Nat) (v : Workspace) :
    ((if v.userId == uid && v.id != keep && v.isDefault
      then { v with isDefault := false } else v) = v ∧
     ¬ (v.userId = uid ∧ ¬ v.id = keep ∧ v.isDefault = true)) ∨
    ((if v.userId == uid && v.id != keep && v.isDefault
      then { v with isDefault := false } else v)
        = { v with isDefault := false } ∧
     (v.userId = uid ∧ ¬ v.id = keep ∧ v.isDefault = true)) := by
  by_cases h : (v.userId == uid && v.id != keep && v.isDefault) = true
  · right
    refine ⟨if_pos h, ?_⟩
    simp only [Bool.and_eq_true, beq_iff_eq, bne_iff_ne, ne_eq] at h
    exact ⟨h.1.1, h.1.2, h.2⟩
  · left
    refine ⟨if_neg h, ?_⟩
    intro hc
    apply h
    simp only [Bool.and_eq_true, beq_iff_eq, bne_iff_ne, ne_eq]
    exact ⟨⟨hc.1, hc.2.1⟩, hc.2.2⟩

/-- Case analysis for the keyed write-back rewrite. -/
theorem setF_cases (wnew x : Workspace) :
    ((if x.id == wnew.id then wnew else x) = wnew ∧ x.id = wnew.id) ∨
    ((if x.id == wnew.id then wnew else x) = x ∧ ¬ x.id = wnew.id) := by
  by_cases h : x.id = wnew.id
  · left
    exact ⟨by simp [h], h⟩
  · right
    exact ⟨by simp [h], h⟩

/-- After the hook’s clearing pass and the append of a workspace owned by
`uid2`, every user still has at most one default workspace. -/
theorem countP_clear_append_le_one (l : List Workspace) (uid uid2 keep : Nat)
    (w : Workspace)
    (hkeep : ∀ v ∈ l, ¬ v.id = keep)
    (hinv : l.countP (fun v => v.userId == uid && v.isDefault) ≤ 1)
    (hwu : w.userId = uid2) :
    ((l.map (fun v => if v.userId == uid2 && v.id != keep && v.isDefault
                      then { v with isDefault := false } else v)) ++
      [w]).countP (fun v => v.userId == uid && v.isDefault) ≤ 1 := by
  rw [List.countP_append, List.countP_map]
  by_cases huid : uid2 = uid
  · subst huid
    have hz : l.countP ((fun v : Workspace =>
        v.userId == uid2 && v.isDefault) ∘ (fun v =>
          if v.userId == uid2 && v.id != keep && v.isDefault
          then { v with isDefault := false } else v)) = 0 := by
      apply List.countP_eq_zero.2
      intro v hv hcomp
      simp only [Function.comp] at hcomp
      rcases clearF_cases uid2 keep v with ⟨heq, hnc⟩ | ⟨heq, _⟩
      · rw [heq] at hcomp
        simp only [Bool.and_eq_true, beq_iff_eq] at hcomp
        exact hnc ⟨hcomp.1, hkeep v hv, hcomp.2⟩
      · rw [heq] at hcomp
        simp at hcomp
    have hone : List.countP (fun v : Workspace =>
        v.userId == uid2 && v.isDefault) [w] ≤ [w].length :=
      List.countP_le_length _
    simp only [List.length_singleton] at hone
    omega
  · have h0 : List.countP (fun v : Workspace =>
        v.userId == uid && v.isDefault) [w] = 0 := by
      simp [List.countP_cons, hwu, huid]
    have hle : l.countP ((fun v : Workspace =>
        v.userId == uid && v.isDefault) ∘ (fun v =>
          if v.userId == uid2 && v.id != keep && v.isDefault
          then { v with isDefault := false } else v)) ≤
        l.countP (fun v => v.userId == uid && v.isDefault) := by
      apply List.countP_mono_left
      intro v hv hcomp
      simp only [Function.comp] at hcomp
      rcases clearF_cases uid2 keep v with ⟨heq, _⟩ | ⟨heq, _⟩
      · rwa [heq] at hcomp
      · rw [heq] at hcomp
        simp at hcomp
    omega

/-- After the hook’s clearing pass and the keyed write-back of a workspace
made default, every user still has at most one default workspace. -/
theorem countP_clear_set_le_one (l : List Workspace) (uid wu keep : Nat)
    (wnew : Workspace)
    (hnd : (l.map Workspace.id).Nodup)
    (hid : wnew.id = keep)
    (hwu : wnew.userId = wu)
    (hinv : l.countP (fun v => v.userId == uid && v.isDefault) ≤ 1) :
    ((l.map (fun v => if v.userId == wu && v.id != keep && v.isDefault
                      then { v with isDefault := false } else v)).map
       (fun v => if v.id == wnew.id then wnew else v)).countP
      (fun v => v.userId == uid && v.isDefault) ≤ 1 := by
  rw [List.countP_map, List.countP_map]
  by_cases huid : wu = uid
  · have hle : l.countP (((fun v : Workspace =>
        v.userId == uid && v.isDefault) ∘ (fun v =>
          if v.id == wnew.id then wnew else v)) ∘ (fun v =>
          if v.userId == wu && v.id != keep && v.isDefault
          then { v with isDefault := false } else v)) ≤
        l.countP (fun a => Workspace.id a == keep) := by
      apply List.countP_mono_left
      intro v hv hcomp
      simp only [Function.comp] at hcomp
      by_cases hcid : v.id = keep
      · show (Workspace.id v == keep) = true
        simp [hcid]
      · exfalso
        rcases clearF_cases wu keep v with ⟨heq, hnc⟩ | ⟨heq, _⟩
        · rw [heq] at hcomp
          rcases setF_cases wnew v with ⟨heq2, hid2⟩ | ⟨heq2, _⟩
          · rw [hid] at hid2
            exact hcid hid2
          · rw [heq2] at hcomp
            simp only [Bool.and_eq_true, beq_iff_eq] at hcomp
            exact hnc ⟨by rw [huid]; exact hcomp.1, hcid, hcomp.2⟩
        · rw [heq] at hcomp
          rcases setF_cases wnew { v with isDefault := false } with
            ⟨heq2, hid2⟩ | ⟨heq2, _⟩
          · rw [hid] at hid2
            exact hcid hid2
          · rw [heq2] at hcomp
            simp at hcomp
    exact Nat.le_trans hle (countP_key_le_one Workspace.id l keep hnd)
  · have hle : l.countP (((fun v : Workspace =>
        v.userId == uid && v.isDefault) ∘ (fun v =>
          if v.id == wnew.id then wnew else v)) ∘ (fun v =>
          if v.userId == wu && v.id != keep && v.isDefault
          then { v with isDefault := false } else v)) ≤
        l.countP (fun v => v.userId == uid && v.isDefault) := by
      apply List.countP_mono_left
      intro v hv hcomp
      simp only [Function.comp] at hcomp
      rcases clearF_cases wu keep v with ⟨heq, _⟩ | ⟨heq, _⟩
      · rw [heq] at hcomp
        rcases setF_cases wnew v with ⟨heq2, _⟩ | ⟨heq2, _⟩
        · rw [heq2] at hcomp
          simp only [Bool.and_eq_true, beq_iff_eq] at hcomp
          rw [hwu] at hcomp
          exact absurd hcomp.1 huid
        · rwa [heq2] at hcomp
      · rw [heq] at hcomp
        rcases setF_cases wnew { v with isDefault := false } with
          ⟨heq2, _⟩ | ⟨heq2, _⟩
        · rw [heq2] at hcomp
          simp only [Bool.and_eq_true, beq_iff_eq] at hcomp
          rw [hwu] at hcomp
          exact absurd hcomp.1 huid
        · rw [heq2] at hcomp
          simp at hcomp
    exact Nat.le_trans hle hinv

/-- Each workspace-creating or default-setting operation preserves
well-formedness and the at-most-one-default invariant. -/
theorem applyWsOp_invariant (db : DB) (op : WsOp) (uid : Nat)
    (hwf : WsWF db) (hinv : defaultCount db uid ≤ 1) :
    WsWF (applyWsOp db op) ∧ defaultCount (applyWsOp db op) uid ≤ 1 := by
  have happend : ∀ (l : List Workspace) (w : Workspace) (n : Nat),
      (l.map Workspace.id).Nodup → (∀ v ∈ l, v.id < n) → w.id = n →
      ((l ++ [w]).map Workspace.id).Nodup := by
    intro l w n hnd hb hid
    rw [List.map_append]
    rw [List.nodup_append]
    refine ⟨hnd, by simp, ?_⟩
    intro a ha hb2
    simp only [List.map_cons, List.map_nil, List.mem_singleton] at hb2
    subst hb2
    rcases List.mem_map.1 ha with ⟨v, hv, hvid⟩
    have := hb v hv
    omega
  cases op with
  | createOp uid2 name =>
    show WsWF (createWorkspace db uid2 name).1 ∧
      defaultCount (createWorkspace db uid2 name).1 uid ≤ 1
    unfold createWorkspace
    by_cases h1 : jsTrim name = ""
    · simpa [h1] using ⟨hwf, hinv⟩
    · by_cases h2 : 100 < (jsTrim name).length
      · simpa [h1, h2] using ⟨hwf, hinv⟩
      · by_cases h3 : (db.workspaces.any (fun w =>
            w.userId == uid2 && w.name == (jsTrim name) && !w.isTrashed))
            = true
        · simpa [h1, h2, h3] using ⟨hwf, hinv⟩
        · have hsave := workspaceSave_insert_ok
            { db with nextId := db.nextId + 1 }
            { id := db.nextId, name := (jsTrim name), userId := uid2 } rfl
          simp only [h1, h2, h3, if_false, if_true, hsave,
            Bool.false_eq_true]
          constructor
          · constructor
            · show ((db.workspaces ++ [_]).map Workspace.id).Nodup
              exact happend db.workspaces _ db.nextId hwf.1 hwf.2 rfl
            · intro v hv
              rcases List.mem_append.1 hv with hvl | hvr
              · have := hwf.2 v hvl
                show v.id < db.nextId + 1
                omega
              · simp only [List.mem_singleton] at hvr
                subst hvr
                show db.nextId < db.nextId + 1
                omega
          · show (db.workspaces ++ [_]).countP _ ≤ 1
            rw [List.countP_append]
            simpa using hinv
  | createDefaultOp uid2 =>
    show WsWF (createDefault db uid2).1 ∧
      defaultCount (createDefault db uid2).1 uid ≤ 1
    unfold createDefault
    have hsave := workspaceSave_default_insert_ok
      { db with nextId := db.nextId + 1 }
      { id := db.nextId, name := "My Workspace", userId := uid2,
        isDefault := true } rfl rfl
    simp only [hsave, clearOtherDefaults]
    constructor
    · constructor
      · show ((_ ++ [_]).map Workspace.id).Nodup
        apply happend _ _ db.nextId _ _ rfl
        · show ((db.workspaces.map _).map Workspace.id).Nodup
          rw [map_key_of_id_preserving Workspace.id _
            (fun v => clearOther_id uid2 db.nextId v)]
          exact hwf.1
        · intro v hv
          rcases List.mem_map.1 hv with ⟨v0, hv0, hveq⟩
          subst hveq
          rw [clearOther_id]
          exact hwf.2 v0 hv0
      · intro v hv
        rcases List.mem_append.1 hv with hvl | hvr
        · rcases List.mem_map.1 hvl with ⟨v0, hv0, hveq⟩
          subst hveq
          show _ < db.nextId + 1
          rw [clearOther_id]
          have := hwf.2 v0 hv0
          omega
        · simp only [List.mem_singleton] at hvr
          subst hvr
          show db.nextId < db.nextId + 1
          omega
    · exact countP_clear_append_le_one db.workspaces uid uid2 db.nextId
        _ (fun v hv => by have := hwf.2 v hv; omega) hinv rfl
  | setDefaultOp wid =>
    show WsWF (setDefaultWorkspace db wid) ∧
      defaultCount (setDefaultWorkspace db wid) uid ≤ 1
    cases hf : db.findWorkspace wid with
    | none =>
      have hred : setDefaultWorkspace db wid = db := by
        unfold setDefaultWorkspace
        simp only [hf]
      rw [hred]
      exact ⟨hwf, hinv⟩
    | some w =>
      have hwmem : w ∈ db.workspaces := List.mem_of_find?_eq_some hf
      have hwid : w.id = wid := by
        have := List.find?_some hf
        simpa using this
      by_cases hv : Workspace.statsValid { w with isDefault := true } = true
      · have hred : setDefaultWorkspace db wid
            = (clearOtherDefaults db
                ({ w with isDefault := true } : Workspace).userId
                ({ w with isDefault := true } : Workspace).id).setWorkspace
                { w with isDefault := true } := by
          unfold setDefaultWorkspace
          simp only [hf, workspaceSave_default_update_ok _ _ rfl hv]
        rw [hred]
        simp only [clearOtherDefaults, DB.setWorkspace]
        constructor
        · constructor
          · show (((db.workspaces.map _).map _).map Workspace.id).Nodup
            rw [map_key_of_id_preserving Workspace.id _ (fun v => by
              rcases setF_cases { w with isDefault := true } v with
                ⟨heq2, hid2⟩ | ⟨heq2, _⟩
              · rw [heq2]
                exact hid2.symm
              · rw [heq2])]
            rw [map_key_of_id_preserving Workspace.id _
              (fun v => clearOther_id w.userId w.id v)]
            exact hwf.1
          · intro v hv2
            rcases List.mem_map.1 hv2 with ⟨v1, hv1, hveq⟩
            subst hveq
            rcases List.mem_map.1 hv1 with ⟨v0, hv0, hveq0⟩
            subst hveq0
            rcases setF_cases { w with isDefault := true }
                (if v0.userId == w.userId && v0.id != w.id && v0.isDefault
                 then { v0 with isDefault := false } else v0) with
              ⟨heq2, _⟩ | ⟨heq2, _⟩
            · rw [heq2]
              show w.id < db.nextId
              exact hwf.2 w hwmem
            · rw [heq2]
              show (if v0.userId == w.userId && v0.id != w.id && v0.isDefault
                  then { v0 with isDefault := false } else v0).id < db.nextId
              rw [clearOther_id]
              exact hwf.2 v0 hv0
        · exact countP_clear_set_le_one db.workspaces uid w.userId w.id
            { w with isDefault := true } hwf.1 rfl rfl hinv
      · have hv2 : Workspace.statsValid { w with isDefault := true }
            = false := by
          cases hb : Workspace.statsValid { w with isDefault := true } with
          | true => exact absurd hb hv
          | false => rfl
        have hred : setDefaultWorkspace db wid = db := by
          unfold setDefaultWorkspace
          simp only [hf, workspaceSave, hv2]
          rfl
        rw [hred]
        exact ⟨hwf, hinv⟩

/-- C6: after any sequence of workspace-creation and set-default operations,
at most one non-trashed workspace of any user carries the default flag — and
making a workspace the default clears the flag on every other workspace of
the same owner in the same write (the pre-save hook's `updateMany`). -/
theorem C6_at_most_one_default :
    (∀ (ops : List WsOp) (db : DB) (uid : Nat),
       WsWF db → defaultCount db uid ≤ 1 →
       nonTrashedDefaultCount (ops.foldl applyWsOp db) uid ≤ 1) ∧
    (∀ (db : DB) (wid : Nat) (w : Workspace),
       db.findWorkspace wid = some w →
       Workspace.statsValid { w with isDefault := true } = true →
       ∀ w' ∈ (setDefaultWorkspace db wid).workspaces,
         w'.userId = w.userId → ¬ w'.id = w.id → w'.isDefault = false) := by
  constructor
  · intro ops
    induction ops with
    | nil =>
      intro db uid hwf hinv
      exact Nat.le_trans (nonTrashed_le_default db uid) hinv
    | cons op t ih =>
      intro db uid hwf hinv
      rcases applyWsOp_invariant db op uid hwf hinv with ⟨h1, h2⟩
      exact ih (applyWsOp db op) uid h1 h2
  · intro db wid w hf hv w' hmem hu hnid
    have hred : setDefaultWorkspace db wid
        = (clearOtherDefaults db
            ({ w with isDefault := true } : Workspace).userId
            ({ w with isDefault := true } : Workspace).id).setWorkspace
            { w with isDefault := true } := by
      unfold setDefaultWorkspace
      simp only [hf, workspaceSave_default_update_ok _ _ rfl hv]
    rw [hred] at hmem
    simp only [clearOtherDefaults, DB.setWorkspace] at hmem
    rcases List.mem_map.1 hmem with ⟨v1, hv1, heq1⟩
    rcases List.mem_map.1 hv1 with ⟨v0, hv0, heq0⟩
    have heq1' : (if v1.id == w.id then { w with isDefault := true } else v1)
        = w' := heq1
    have heq0' : (if v0.userId == w.userId && v0.id != w.id && v0.isDefault
        then { v0 with isDefault := false } else v0) = v1 := heq0
    by_cases hc1 : (v1.id == w.id) = true
    · exfalso
      apply hnid
      rw [if_pos hc1] at heq1'
      rw [← heq1']
    · rw [if_neg hc1] at heq1'
      by_cases hc0 : (v0.userId == w.userId && v0.id != w.id && v0.isDefault)
          = true
      · rw [if_pos hc0] at heq0'
        rw [← heq1', ← heq0']
      · rw [if_neg hc0] at heq0'
        simp only [Bool.and_eq_true, beq_iff_eq, bne_iff_ne, ne_eq] at hc0
        cases hb : v0.isDefault with
        | false => rw [← heq1', ← heq0']; exact hb
        | true =>
          exfalso
          apply hc0
          refine ⟨⟨?_, ?_⟩, hb⟩
          · rw [← heq1', ← heq0'] at hu
            exact hu
          · intro hcc
            apply hnid
            rw [← heq1', ← heq0']
            exact hcc

/-- Witness for C6 at a concrete input: starting from the empty store,
creating a default workspace, creating a plain one and re-running set-default
leaves user 1 with at most one non-trashed default; and on a store with
workspace 0 default, setting workspace 1 default clears workspace 0's flag in
the same write. -/
theorem C6_at_most_one_default_witness :
    nonTrashedDefaultCount
      ([WsOp.createDefaultOp 1, WsOp.createOp 1 "Beats",
        WsOp.setDefaultOp 0].foldl applyWsOp {}) 1 ≤ 1 ∧
    ({ id := 0, name := "A", userId := 1, isDefault := false } :
        Workspace).isDefault = false :=
  ⟨C6_at_most_one_default.1
     [WsOp.createDefaultOp 1, WsOp.createOp 1 "Beats", WsOp.setDefaultOp 0]
     {} 1 ⟨by decide, by decide⟩ (by decide),
   C6_at_most_one_default.2
     { workspaces := [{ id := 0, name := "A", userId := 1,
                        isDefault := true },
                      { id := 1, name := "B", userId := 1 }], nextId := 2 }
     1 { id := 1, name := "B", userId := 1 } (by decide) (by decide)
     { id := 0, name := "A", userId := 1, isDefault := false }
     (by decide) (by decide) (by decide)⟩

/-! ## C7 — the default workspace cannot be trashed or deleted -/

/-- A keyed write-back of a workspace with a fresh-bounded id preserves
store well-formedness. -/
theorem wf_setWorkspace (db : DB) (wnew : Workspace)
    (hwf : WsWF db) (hlt : wnew.id < db.nextId) :
    WsWF (db.setWorkspace wnew) := by
  constructor
  · show ((db.workspaces.map _).map Workspace.id).Nodup
    rw [map_key_of_id_preserving Workspace.id _ (fun v => by
      by_cases h : (v.id == wnew.id) = true
      · rw [if_pos h]
        exact (by simpa using h : v.id = wnew.id).symm
      · rw [if_neg h])]
    exact hwf.1
  · intro v hv
    rcases List.mem_map.1 hv with ⟨v0, hv0, heq⟩
    subst heq
    by_cases h : (v0.id == wnew.id) = true
    · rw [if_pos h]
      exact hlt
    · rw [if_neg h]
      exact hwf.2 v0 hv0

/-- A keyed write-back that does not target the living default workspace
keeps it alive. -/
theorem alive_setWorkspace (db : DB) (wnew : Workspace) (wid : Nat)
    (halive : defaultAlive db wid) (hne : ¬ wnew.id = wid) :
    defaultAlive (db.setWorkspace wnew) wid := by
  rcases halive with ⟨w, hmem, hid, hdef, htr⟩
  refine ⟨w, ?_, hid, hdef, htr⟩
  apply List.mem_map.2
  refine ⟨w, hmem, ?_⟩
  have hc : (w.id == wnew.id) = false := by
    have : ¬ w.id = wnew.id := by
      rw [hid]
      intro hcc
      exact hne hcc.symm
    simp [this]
  rw [if_neg (by simp [hc])]

/-- Each trash/permanent-delete/restore operation preserves well-formedness
and keeps a living default workspace present, default and untrashed. -/
theorem applyTrashOp_invariant (db : DB) (op : TrashOp) (wid : Nat)
    (hwf : WsWF db) (halive : defaultAlive db wid) :
    WsWF (applyTrashOp db op) ∧ defaultAlive (applyTrashOp db op) wid := by
  rcases halive with ⟨w, hmem, hid, hdef, htr⟩
  have hinj := List.inj_on_of_nodup_map hwf.1
  cases op with
  | trashOp uid wid2 =>
    show WsWF (deleteWorkspace db uid wid2).1 ∧
      defaultAlive (deleteWorkspace db uid wid2).1 wid
    cases hfo : db.findWorkspaceOwnedAny wid2 uid with
    | none =>
      have hred : (deleteWorkspace db uid wid2).1 = db := by
        unfold deleteWorkspace
        simp only [hfo]
      rw [hred]
      exact ⟨hwf, w, hmem, hid, hdef, htr⟩
    | some w2 =>
      have hmem2 : w2 ∈ db.workspaces := List.mem_of_find?_eq_some hfo
      have hwid2 : w2.id = wid2 := by
        have := List.find?_some hfo
        simp only [Bool.and_eq_true, beq_iff_eq] at this
        exact this.1
      by_cases hd : w2.isDefault = true
      · have hred : (deleteWorkspace db uid wid2).1 = db := by
          unfold deleteWorkspace
          simp only [hfo]
          rw [if_pos hd]
        rw [hred]
        exact ⟨hwf, w, hmem, hid, hdef, htr⟩
      · have hne : ¬ w2.id = wid := by
          intro hcc
          apply hd
          have : w2 = w := hinj hmem2 hmem (by rw [hcc, hid])
          rw [this]
          exact hdef
        by_cases hv : Workspace.statsValid { w2 with isTrashed := true }
            = true
        · have hred : (deleteWorkspace db uid wid2).1
              = db.setWorkspace { w2 with isTrashed := true } := by
            unfold deleteWorkspace
            simp only [hfo]
            rw [if_neg hd, workspaceSave_update_ok _ _ hv]
          rw [hred]
          refine ⟨wf_setWorkspace db _ hwf (hwf.2 w2 hmem2), ?_⟩
          exact alive_setWorkspace db _ wid ⟨w, hmem, hid, hdef, htr⟩ hne
        · have hv2 : Workspace.statsValid { w2 with isTrashed := true }
              = false := by
            cases hb : Workspace.statsValid { w2 with isTrashed := true } with
            | true => exact absurd hb hv
            | false => rfl
          have hred : (deleteWorkspace db uid wid2).1 = db := by
            unfold deleteWorkspace
            simp only [hfo]
            rw [if_neg hd]
            unfold workspaceSave
            rw [hv2]
            rfl
          rw [hred]
          exact ⟨hwf, w, hmem, hid, hdef, htr⟩
  | permDeleteOp uid wid2 =>
    show WsWF (permanentDeleteWorkspace db uid wid2).1 ∧
      defaultAlive (permanentDeleteWorkspace db uid wid2).1 wid
    cases hfo : db.findWorkspaceOwnedAny wid2 uid with
    | none =>
      have hred : (permanentDeleteWorkspace db uid wid2).1 = db := by
        unfold permanentDeleteWorkspace
        simp only [hfo]
      rw [hred]
      exact ⟨hwf, w, hmem, hid, hdef, htr⟩
    | some w2 =>
      have hmem2 : w2 ∈ db.workspaces := List.mem_of_find?_eq_some hfo
      have hwid2 : w2.id = wid2 := by
        have := List.find?_some hfo
        simp only [Bool.and_eq_true, beq_iff_eq] at this
        exact this.1
      by_cases hd : w2.isDefault = true
      · have hred : (permanentDeleteWorkspace db uid wid2).1 = db := by
          unfold permanentDeleteWorkspace
          simp only [hfo]
          rw [if_pos hd]
        rw [hred]
        exact ⟨hwf, w, hmem, hid, hdef, htr⟩
      · have hne : ¬ wid2 = wid := by
          intro hcc
          apply hd
          have : w2 = w := hinj hmem2 hmem (by rw [hwid2, hcc, hid])
          rw [this]
          exact hdef
        have hred : (permanentDeleteWorkspace db uid wid2).1.workspaces
            = db.workspaces.filter (fun v => v.id ≠ wid2) ∧
            (permanentDeleteWorkspace db uid wid2).1.nextId = db.nextId := by
          unfold permanentDeleteWorkspace
          simp only [hfo]
          rw [if_neg hd]
          exact ⟨rfl, rfl⟩
        constructor
        · constructor
          · rw [hred.1]
            exact ((List.filter_sublist _).map Workspace.id).nodup hwf.1
          · intro v hv
            rw [hred.1] at hv
            rw [hred.2]
            exact hwf.2 v (List.mem_of_mem_filter hv)
        · refine ⟨w, ?_, hid, hdef, htr⟩
          rw [hred.1]
          apply List.mem_filter.2
          refine ⟨hmem, ?_⟩
          simp only [decide_eq_true_eq, ne_eq]
          rw [hid]
          intro hcc
          exact hne hcc.symm
  | restoreOp uid wid2 =>
    show WsWF (restoreWorkspace db uid wid2).1 ∧
      defaultAlive (restoreWorkspace db uid wid2).1 wid
    cases hfo : db.workspaces.find?
        (fun v => v.id == wid2 && v.userId == uid && v.isTrashed) with
    | none =>
      have hred : (restoreWorkspace db uid wid2).1 = db := by
        unfold restoreWorkspace
        simp only [hfo]
      rw [hred]
      exact ⟨hwf, w, hmem, hid, hdef, htr⟩
    | some w2 =>
      have hmem2 : w2 ∈ db.workspaces := List.mem_of_find?_eq_some hfo
      have hprops := List.find?_some hfo
      have hne : ¬ w2.id = wid := by
        intro hcc
        have : w2 = w := hinj hmem2 hmem (by rw [hcc, hid])
        simp only [Bool.and_eq_true, beq_iff_eq] at hprops
        rw [this, htr] at hprops
        exact Bool.false_ne_true hprops.2
      have hred : (restoreWorkspace db uid wid2).1
          = db.setWorkspace { w2 with isTrashed := false } := by
        unfold restoreWorkspace
        simp only [hfo]
      rw [hred]
      refine ⟨wf_setWorkspace db _ hwf (hwf.2 w2 hmem2), ?_⟩
      exact alive_setWorkspace db _ wid ⟨w, hmem, hid, hdef, htr⟩ hne

/-- C7: the trash endpoint and the permanent-delete endpoint both reject a
default workspace with a 400 and no state change, and through any sequence
of trash/permanent-delete/restore operations a default workspace stays
present, default and untrashed. -/
theorem C7_default_workspace_protected :
    (∀ (db : DB) (uid wid : Nat) (w : Workspace),
       db.findWorkspaceOwnedAny wid uid = some w → w.isDefault = true →
       deleteWorkspace db uid wid = (db, .cannotDeleteDefault) ∧
       permanentDeleteWorkspace db uid wid = (db, .cannotDeleteDefault)) ∧
    (∀ (ops : List TrashOp) (db : DB) (wid : Nat),
       WsWF db → defaultAlive db wid →
       defaultAlive (ops.foldl applyTrashOp db) wid) := by
  constructor
  · intro db uid wid w hfo hd
    constructor
    · unfold deleteWorkspace
      simp only [hfo]
      rw [if_pos hd]
    · unfold permanentDeleteWorkspace
      simp only [hfo]
      rw [if_pos hd]
  · intro ops
    induction ops with
    | nil =>
      intro db wid _ halive
      exact halive
    | cons op t ih =>
      intro db wid hwf halive
      rcases applyTrashOp_invariant db op wid hwf halive with ⟨h1, h2⟩
      exact ih (applyTrashOp db op) wid h1 h2

/-- Witness for C7 at a concrete input: trashing and permanently deleting
the default workspace 0 are both rejected unchanged, and after attempting to
trash and delete both workspaces and restore workspace 1, the default
workspace 0 is still present, default and untrashed. -/
theorem C7_default_workspace_protected_witness :
    (deleteWorkspace
       { workspaces := [{ id := 0, name := "A", userId := 1,
                          isDefault := true },
                        { id := 1, name := "B", userId := 1 }], nextId := 2 }
       1 0
     = ({ workspaces := [{ id := 0, name := "A", userId := 1,
                           isDefault := true },
                         { id := 1, name := "B", userId := 1 }],
          nextId := 2 }, .cannotDeleteDefault) ∧
     permanentDeleteWorkspace
       { workspaces := [{ id := 0, name := "A", userId := 1,
                          isDefault := true },
                        { id := 1, name := "B", userId := 1 }], nextId := 2 }
       1 0
     = ({ workspaces := [{ id := 0, name := "A", userId := 1,
                           isDefault := true },
                         { id := 1, name := "B", userId := 1 }],
          nextId := 2 }, .cannotDeleteDefault)) ∧
    defaultAlive
      ([TrashOp.trashOp 1 0, TrashOp.trashOp 1 1, TrashOp.permDeleteOp 1 0,
        TrashOp.restoreOp 1 1].foldl applyTrashOp
        { workspaces := [{ id := 0, name := "A", userId := 1,
                           isDefault := true },
                         { id := 1, name := "B", userId := 1 }],
          nextId := 2 }) 0 :=
  ⟨C7_default_workspace_protected.1
     { workspaces := [{ id := 0, name := "A", userId := 1,
                        isDefault := true },
                      { id := 1, name := "B", userId := 1 }], nextId := 2 }
     1 0 { id := 0, name := "A", userId := 1, isDefault := true }
     (by decide) (by decide),
   C7_default_workspace_protected.2
     [TrashOp.trashOp 1 0, TrashOp.trashOp 1 1, TrashOp.permDeleteOp 1 0,
      TrashOp.restoreOp 1 1]
     { workspaces := [{ id := 0, name := "A", userId := 1,
                        isDefault := true },
                      { id := 1, name := "B", userId := 1 }], nextId := 2 }
     0 ⟨by decide, by decide⟩
     ⟨{ id := 0, name := "A", userId := 1, isDefault := true },
      by decide, by decide, by decide, by decide⟩⟩

/-! ## C8 — stats recomputation -/

/-- The recomputed stats always satisfy the four aggregate equations: the
explicit zero record returned on an empty match coincides with the empty
count and sums. -/
theorem recomputedStats_eq (songs : List Song) (wid : Nat) :
    recomputedStats songs wid =
      { totalSongs := ((songsOfWorkspace songs wid).length : Int)
        completedSongs := ((songsOfWorkspace songs wid).countP
            (fun s => s.status == .completed) : Int)
        totalDuration := ((songsOfWorkspace songs wid).map Song.duration).sum
        creditsUsed :=
          ((songsOfWorkspace songs wid).map Song.creditsUsed).sum } := by
  unfold recomputedStats
  by_cases h : (songsOfWorkspace songs wid).isEmpty = true
  · have hnil : songsOfWorkspace songs wid = [] := by
      rwa [List.isEmpty_iff] at h
    simp [h, hnil]
  · simp [h]

/-- C8: `updateStats` re-derives the stats cache from the live set of the
workspace's Jobs: afterwards `stats.totalSongs` is the number of Jobs whose
workspace reference is this workspace, `stats.completedSongs` the number of
those with status `completed`, `stats.totalDuration` and `stats.creditsUsed`
the sums of their durations and credits — and the recomputation is invariant
under any permutation of the song collection, i.e. independent of the order
in which the underlying completions occurred. -/
theorem C8_updateStats_recomputes (db : DB) (w : Workspace) (db1 : DB)
    (w1 : Workspace) (h : updateStats db w = .ok (db1, w1)) :
    w1.stats.totalSongs = ((songsOfWorkspace db.songs w.id).length : Int) ∧
    w1.stats.completedSongs = ((songsOfWorkspace db.songs w.id).countP
        (fun s => s.status == .completed) : Int) ∧
    w1.stats.totalDuration
      = ((songsOfWorkspace db.songs w.id).map Song.duration).sum ∧
    w1.stats.creditsUsed
      = ((songsOfWorkspace db.songs w.id).map Song.creditsUsed).sum ∧
    ∀ songs2 : List Song, songs2.Perm db.songs →
      recomputedStats songs2 w.id = recomputedStats db.songs w.id := by
  have hw1 : w1.stats = recomputedStats db.songs w.id := by
    unfold updateStats at h
    cases hs : workspaceSave db
        { w with stats := recomputedStats db.songs w.id } false false with
    | error e => rw [hs] at h; cases h
    | ok dbx =>
      rw [hs] at h
      cases h
      rfl
  refine ⟨?_, ?_, ?_, ?_, ?_⟩
  · rw [hw1, recomputedStats_eq]
  · rw [hw1, recomputedStats_eq]
  · rw [hw1, recomputedStats_eq]
  · rw [hw1, recomputedStats_eq]
  · intro songs2 hp
    have hperm : (songsOfWorkspace songs2 w.id).Perm
        (songsOfWorkspace db.songs w.id) := by
      unfold songsOfWorkspace
      exact hp.filter _
    rw [recomputedStats_eq, recomputedStats_eq, hperm.length_eq,
      hperm.countP_eq, (hperm.map Song.duration).sum_eq,
      (hperm.map Song.creditsUsed).sum_eq]

/-- Witness for C8 at a concrete input: recomputing workspace 7's stats over
`dbStats` yields 2 songs, 1 completed, total duration 13, credits 7, and the
recomputation agrees on a reordering of the song collection. -/
theorem C8_updateStats_recomputes_witness :
    (({ id := 7, name := "W", userId := 1,
        stats := { totalSongs := 2, completedSongs := 1, totalDuration := 13,
                   creditsUsed := 7 } } : Workspace).stats.totalSongs
      = ((songsOfWorkspace dbStats.songs 7).length : Int)) ∧
    recomputedStats
        [{ id := 2, status := .pending, duration := 3, creditsUsed := 2,
           userId := 1, workspace := some 7 },
         { id := 1, status := .completed, duration := 10, creditsUsed := 5,
           userId := 1, workspace := some 7 },
         { id := 4, status := .completed, duration := 7, creditsUsed := 5,
           userId := 1, workspace := some 9 }] 7
      = recomputedStats dbStats.songs 7 :=
  ⟨(C8_updateStats_recomputes dbStats { id := 7, name := "W", userId := 1 }
      { dbStats with workspaces :=
          [{ id := 7, name := "W", userId := 1,
             stats := { totalSongs := 2, completedSongs := 1,
                        totalDuration := 13, creditsUsed := 7 } }] }
      { id := 7, name := "W", userId := 1,
        stats := { totalSongs := 2, completedSongs := 1, totalDuration := 13,
                   creditsUsed := 7 } } (by rfl)).1,
   (C8_updateStats_recomputes dbStats { id := 7, name := "W", userId := 1 }
      { dbStats with workspaces :=
          [{ id := 7, name := "W", userId := 1,
             stats := { totalSongs := 2, completedSongs := 1,
                        totalDuration := 13, creditsUsed := 7 } }] }
      { id := 7, name := "W", userId := 1,
        stats := { totalSongs := 2, completedSongs := 1, totalDuration := 13,
                   creditsUsed := 7 } } (by rfl)).2.2.2.2
     [{ id := 2, status := .pending, duration := 3, creditsUsed := 2,
        userId := 1, workspace := some 7 },
      { id := 1, status := .completed, duration := 10, creditsUsed := 5,
        userId := 1, workspace := some 7 },
      { id := 4, status := .completed, duration := 7, creditsUsed := 5,
        userId := 1, workspace := some 9 }] (by decide)⟩

end MusicAI
